import Mathlib

/-!
# BubbleBreak simulation engine: shallow embedding and verification

This file embeds the core of the BubbleBreak simulation (physics engine,
bubble lifecycle manager, particle burst system, audio trigger subsystem)
as executable Lean definitions and proves/refutes the specification claims
about them.

Conventions of the embedding:
* JS numbers are modelled as rationals (`ℚ`).  Decimal literals from the
  source are written as exact fractions (`16.67 = 1667/100`, `0.92 = 23/25`).
* Calls to the ambient `Math` library (`sin`, `cos`, `sqrt`, `pow`, `PI`)
  are routed through an explicit `MathFns` record, since those are external
  float functions; theorems either hold for every backend or state their
  needed properties as hypotheses.
* `Math.random()` is modelled by threading an explicit stream of rationals
  (`Rng`); each `draw` consumes one value, mirroring each `Math.random()`
  call site in source order.
* JS object fields that a method reads but that no constructor ever assigns
  (`undefined` in JS) are modelled as `Option` fields initialised to `none`;
  member access on such a field throws a `TypeError` in JS, which the
  embedding reflects by taking the corresponding fallback/catch path.
-/

/-- Stream of pre-drawn `Math.random()` results.  `draw` pops the head
(defaulting to 0 on exhaustion, which never matters for the statements
below since they either quantify over streams or supply enough values). -/
def Rng := List ℚ

/-- Pop one random value, as one `Math.random()` call. -/
def draw (r : Rng) : ℚ × Rng :=
  match r with
  | [] => (0, [])
  | x :: xs => (x, xs)

/-- External `Math` float functions used by the engine.  The engine code is
parametric in these; concrete instantiations are used for witnesses. -/
structure MathFns where
  sin : ℚ → ℚ
  cos : ℚ → ℚ
  sqrt : ℚ → ℚ
  pow : ℚ → ℚ → ℚ
  pi : ℚ

/-- A 2D vector, as the `{x, y}` objects of the source. -/
structure Vec where
  x : ℚ
  y : ℚ
deriving DecidableEq, Repr

/-- One breeze zone (`PhysicsEngine.generateBreezeZones` element shape). -/
structure Zone where
  x : ℚ
  y : ℚ
  radius : ℚ
  strength : ℚ
  direction : ℚ
  pulseSpeed : ℚ
  phase : ℚ
deriving DecidableEq, Repr

/-- State of `PhysicsEngine` (fields from its constructor). -/
structure EngineState where
  width : ℚ
  height : ℚ
  gravity : ℚ := -1/20            -- -0.05
  airResistance : ℚ := 199/200    -- 0.995
  wobbleStrength : ℚ := 1/10      -- 0.1
  breezeStrength : ℚ := 1/5       -- 0.2
  windForce : Vec := ⟨0, 0⟩
  lastWindUpdate : ℚ := 0
  windUpdateInterval : ℚ := 3000
  targetWind : Vec := ⟨0, 0⟩
  breezeZones : List Zone := []
  simplePhysics : Bool := false
deriving DecidableEq, Repr

/-- One star of the galaxy theme (`Bubble.generateStarPositions` element). -/
structure StarPt where
  x : ℚ
  y : ℚ
  size : ℚ
  twinkle : ℚ
deriving DecidableEq, Repr

/-- Theme flags relevant to `Bubble.update`. -/
structure Theme where
  hueBase : ℚ := 200
  shimmer : Bool := false
  sparkle : Bool := false
  stars : Bool := false
deriving DecidableEq, Repr

/-- State of one `Bubble` (fields from the `Bubble` constructor; `bid` is a
ghost allocation identifier used only to state pool-ownership facts). -/
structure Bubble where
  bid : ℕ := 0
  x : ℚ
  y : ℚ
  size : ℚ
  radius : ℚ
  lifetime : ℚ
  age : ℚ := 0
  isAlive : Bool := true
  vx : ℚ := 0
  vy : ℚ := 0
  wobbleOffset : ℚ := 0
  wobbleSpeed : ℚ := 1/50
  spawnMomentumX : ℚ := 0
  spawnMomentumY : ℚ := 0
  opacity : ℚ := 1
  theme : Option Theme := none
  hue : ℚ := 0
  hueSpeed : ℚ := 1/2
  sparkleOffset : ℚ := 0
  shimmerPhase : ℚ := 0
  starPositions : List StarPt := []
deriving DecidableEq, Repr

/-- `PhysicsEngine.isInSpawnGracePeriod`. -/
def isInSpawnGracePeriod (e : EngineState) (b : Bubble) : Bool :=
  -- maxGraceTime = 2000, margin = 50
  if b.age > 2000 then false
  else
    let isOnScreen :=
      b.x > -50 && b.x < e.width + 50 && b.y > -50 && b.y < e.height + 50
    !isOnScreen

/-- `PhysicsEngine.applyBuoyancy`. -/
def applyBuoyancy (e : EngineState) (b : Bubble) (dt graceFactor : ℚ) : Bubble :=
  let buoyancyForce := e.gravity * (1 + b.size / 100) * graceFactor
  { b with vy := b.vy + buoyancyForce * dt }

/-- `PhysicsEngine.applyWobble`. -/
def applyWobble (M : MathFns) (e : EngineState) (b : Bubble) (dt graceFactor : ℚ) :
    Bubble :=
  if e.simplePhysics then b
  else
    let wobbleX := M.sin (b.age * b.wobbleSpeed + b.wobbleOffset) *
      e.wobbleStrength * graceFactor
    let wobbleY := M.cos (b.age * b.wobbleSpeed * (7/10) + b.wobbleOffset) *
      e.wobbleStrength * (1/2) * graceFactor
    let b := { b with
      vx := b.vx + wobbleX * (3/1000) * dt,
      vy := b.vy + wobbleY * (3/1000) * dt }
    let sizeModifier := 1/2 + b.size / 300
    { b with vx := b.vx + wobbleX * (2/1000) * sizeModifier * dt }

/-- `PhysicsEngine.getLocalBreeze` (pulse uses `Date.now()`, passed as
`nowMs`). -/
def getLocalBreeze (M : MathFns) (nowMs : ℚ) (e : EngineState) (x y : ℚ) : Vec :=
  let acc := e.breezeZones.foldl (fun (acc : Vec × ℚ) zone =>
    let dx := x - zone.x
    let dy := y - zone.y
    let distance := M.sqrt (dx * dx + dy * dy)
    if distance < zone.radius then
      let influence := 1 - distance / zone.radius
      let weight := influence * influence
      let pulse := 1 + M.sin (nowMs * zone.pulseSpeed + zone.phase) * (3/10)
      let strength := zone.strength * pulse * weight
      let forceX := M.cos zone.direction * strength
      let forceY := M.sin zone.direction * strength
      (⟨acc.1.x + forceX * weight, acc.1.y + forceY * weight⟩, acc.2 + weight)
    else acc) (⟨0, 0⟩, 0)
  if acc.2 > 0 then ⟨acc.1.x / acc.2, acc.1.y / acc.2⟩ else acc.1

/-- `PhysicsEngine.applyBreeze`. -/
def applyBreeze (M : MathFns) (nowMs : ℚ) (e : EngineState) (b : Bubble)
    (dt graceFactor : ℚ) : Bubble :=
  let b := { b with
    vx := b.vx + e.windForce.x * (5/1000) * dt * graceFactor,
    vy := b.vy + e.windForce.y * (3/1000) * dt * graceFactor }
  let localBreeze := getLocalBreeze M nowMs e b.x b.y
  let b := { b with
    vx := b.vx + localBreeze.x * (4/1000) * dt * graceFactor,
    vy := b.vy + localBreeze.y * (3/1000) * dt * graceFactor }
  let windResistance := 1/2 + b.size / 300
  { b with vx := b.vx + e.windForce.x * (3/1000) * windResistance * dt * graceFactor }

/-- `PhysicsEngine.applyAirResistance` (no grace factor in source). -/
def applyAirResistance (M : MathFns) (e : EngineState) (b : Bubble) (dt : ℚ) :
    Bubble :=
  let b := { b with
    vx := b.vx * M.pow e.airResistance dt,
    vy := b.vy * M.pow e.airResistance dt }
  let maxSpeed := 4/5 + b.size / 200
  let speed := M.sqrt (b.vx * b.vx + b.vy * b.vy)
  if speed > maxSpeed then
    let scale := maxSpeed / speed
    { b with vx := b.vx * scale, vy := b.vy * scale }
  else b

/-- `PhysicsEngine.applySizeEffects` (no grace factor in source; the
`Math.pow(0.95, dt)` horizontal damping goes through the math backend, and
one random is consumed when the bubble is small). -/
def applySizeEffectsM (M : MathFns) (b : Bubble) (dt : ℚ) (rng : Rng) :
    Bubble × Rng :=
  let sr := b.size / 150
  let b := if sr > 1 then { b with vx := b.vx * M.pow (19/20) dt } else b
  if sr < 4/5 then
    let (r, rng) := draw rng
    let extraWobble := (4/5 - sr) * (1/10)
    ({ b with vx := b.vx + (r - 1/2) * extraWobble * dt }, rng)
  else (b, rng)

/-- `PhysicsEngine.handleBoundaries`. -/
def handleBoundaries (e : EngineState) (b : Bubble) : Bubble :=
  -- margin = 50
  let b :=
    if b.x < 50 then { b with vx := b.vx + (50 - b.x) * (1/1000) }
    else if b.x > e.width - 50 then
      { b with vx := b.vx - (b.x - (e.width - 50)) * (1/1000) }
    else b
  if b.y < 50 then { b with vy := b.vy + (50 - b.y) * (1/1000) } else b

/-- `PhysicsEngine.generateNewWindPattern` (three `Math.random()` calls). -/
def generateNewWindPattern (M : MathFns) (e : EngineState) (rng : Rng) :
    EngineState × Rng :=
  let (r1, rng) := draw rng
  let windStrength := 1/10 + r1 * (2/10)
  let (r2, rng) := draw rng
  let windDirection := r2 * M.pi * 2
  let tx := M.cos windDirection * windStrength
  let ty := M.sin windDirection * windStrength * (3/10)
  let (r3, rng) := draw rng
  if r3 < 1/10 then
    ({ e with targetWind := ⟨tx * (3/2), ty * (12/10)⟩ }, rng)
  else
    ({ e with targetWind := ⟨tx, ty⟩ }, rng)

/-- `PhysicsEngine.updateEnvironmentalForces`; called (from `updateBubble`)
with the raw frame `deltaTime` in milliseconds. -/
def updateEnvironmentalForces (M : MathFns) (e : EngineState) (deltaTime : ℚ)
    (rng : Rng) : EngineState × Rng :=
  let e := { e with lastWindUpdate := e.lastWindUpdate + deltaTime }
  let (e, rng) :=
    if e.lastWindUpdate ≥ e.windUpdateInterval then
      let (e, rng) := generateNewWindPattern M e rng
      ({ e with lastWindUpdate := 0 }, rng)
    else (e, rng)
  let lerpSpeed : ℚ := 1/50
  ({ e with windForce :=
      ⟨e.windForce.x + (e.targetWind.x - e.windForce.x) * lerpSpeed,
       e.windForce.y + (e.targetWind.y - e.windForce.y) * lerpSpeed⟩ }, rng)

/-- The position integration statements of `PhysicsEngine.updateBubble`
(`bubble.x += bubble.vx * dt; bubble.y += bubble.vy * dt`). -/
def integratePosition (b : Bubble) (dt : ℚ) : Bubble :=
  { b with x := b.x + b.vx * dt, y := b.y + b.vy * dt }

/-- `PhysicsEngine.updateBubble(bubble, deltaTime)`.  Note the source method
declares exactly two parameters; the third argument passed by
`Bubble.update` (the speed multiplier) is silently dropped by JS. -/
def updateBubble (M : MathFns) (nowMs : ℚ) (e : EngineState) (b : Bubble)
    (deltaTime : ℚ) (rng : Rng) : EngineState × Bubble × Rng :=
  let dt := min (deltaTime / (1667/100)) 2
  let (e, rng) := updateEnvironmentalForces M e deltaTime rng
  let isInGrace := isInSpawnGracePeriod e b
  let graceFactor : ℚ := if isInGrace then 1/10 else 1
  let b := applyBuoyancy e b dt graceFactor
  let b := applyWobble M e b dt graceFactor
  let b := applyBreeze M nowMs e b dt graceFactor
  let b := applyAirResistance M e b dt
  let b := integratePosition b dt
  let b := handleBoundaries e b
  let (b, rng) := applySizeEffectsM M b dt rng
  (e, b, rng)

/-- `Bubble.generateStarPositions` inner loop: each star consumes four
randoms (x, y, size, twinkle) in source order. -/
def genStars (M : MathFns) (radius : ℚ) : ℕ → Rng → List StarPt × Rng
  | 0, rng => ([], rng)
  | n + 1, rng =>
    let (rx, rng) := draw rng
    let (ry, rng) := draw rng
    let (rs, rng) := draw rng
    let (rt, rng) := draw rng
    let star : StarPt :=
      ⟨(rx - 1/2) * radius * (16/10), (ry - 1/2) * radius * (16/10),
       1/2 + rs * (3/2), rt * M.pi * 2⟩
    let (rest, rng) := genStars M radius n rng
    (star :: rest, rng)

/-- `Bubble.generateStarPositions`: 3 + ⌊random·4⌋ stars. -/
def generateStarPositions (M : MathFns) (radius : ℚ) (rng : Rng) :
    List StarPt × Rng :=
  let (rc, rng) := draw rng
  let starCount := 3 + (⌊rc * 4⌋).toNat
  genStars M radius starCount rng

/-- The `Bubble` constructor (`new Bubble(x, y, size, lifetime, theme)`),
with `bid` the ghost allocation id assigned by the caller. -/
def mkBubble (M : MathFns) (bid : ℕ) (x y size lifetime : ℚ)
    (theme : Option Theme) (rng : Rng) : Bubble × Rng :=
  let (rw, rng) := draw rng
  let (rws, rng) := draw rng
  let (rh, rng) := draw rng
  let (rhs, rng) := draw rng
  let (rsp, rng) := draw rng
  let (rsh, rng) := draw rng
  let (stars, rng) :=
    match theme with
    | some t => if t.stars then generateStarPositions M (size / 2) rng else ([], rng)
    | none => ([], rng)
  ({ bid := bid, x := x, y := y, size := size, radius := size / 2,
     lifetime := lifetime, age := 0, isAlive := true, vx := 0, vy := 0,
     wobbleOffset := rw * M.pi * 2,
     wobbleSpeed := 2/100 + rws * (2/100),
     spawnMomentumX := 0, spawnMomentumY := 0,
     opacity := 1, theme := theme,
     hue := (match theme with
       | some t => t.hueBase + (rh - 1/2) * 60
       | none => rh * 360),
     hueSpeed := 1/2 + rhs,
     sparkleOffset := rsp * M.pi * 2,
     shimmerPhase := rsh * M.pi * 2,
     starPositions := stars }, rng)

/-- `BubbleManager.resetBubble` (reuses a pooled bubble; keeps its
`wobbleSpeed`, `hueSpeed` and ghost id, unlike the constructor). -/
def resetBubble (M : MathFns) (b : Bubble) (x y size lifetime : ℚ)
    (theme : Option Theme) (rng : Rng) : Bubble × Rng :=
  let (rw, rng) := draw rng
  let (rh, rng) := draw rng
  let (rsp, rng) := draw rng
  let (rsh, rng) := draw rng
  let (stars, rng) :=
    match theme with
    | some t => if t.stars then generateStarPositions M (size / 2) rng else ([], rng)
    | none => ([], rng)
  ({ b with
     x := x, y := y, size := size, radius := size / 2,
     lifetime := lifetime, age := 0, isAlive := true, opacity := 1,
     theme := theme, vx := 0, vy := 0,
     wobbleOffset := rw * M.pi * 2,
     hue := (match theme with
       | some t => t.hueBase + (rh - 1/2) * 60
       | none => rh * 360),
     sparkleOffset := rsp * M.pi * 2,
     shimmerPhase := rsh * M.pi * 2,
     starPositions := stars }, rng)

/-- `this.age += deltaTime` at the top of `Bubble.update`. -/
def bubbleAdvanceAge (b : Bubble) (deltaTime : ℚ) : Bubble :=
  { b with age := b.age + deltaTime }

/-- `this.isAlive = false`. -/
def bubbleKill (b : Bubble) : Bubble :=
  { b with isAlive := false }

/-- The engine-less fallback movement of `Bubble.update` (position advanced
by velocity times the speed multiplier, plus a direct wobble shift). -/
def bubbleFallbackMove (M : MathFns) (b : Bubble) (speedMultiplier : ℚ) :
    Bubble :=
  let b := { b with
    x := b.x + b.vx * speedMultiplier,
    y := b.y + b.vy * speedMultiplier }
  { b with x := b.x + M.sin (b.age * b.wobbleSpeed + b.wobbleOffset) * (2/10) }

/-- The hue-cycling statements of `Bubble.update`. -/
def bubbleUpdateHue (b : Bubble) : Bubble :=
  let b := { b with hue := b.hue + b.hueSpeed }
  if b.hue > (360 : ℚ) then { b with hue := b.hue - 360 } else b

/-- The theme-specific animation statements of `Bubble.update`. -/
def bubbleUpdateThemeAnim (b : Bubble) : Bubble :=
  match b.theme with
  | none => b
  | some t =>
    let b := if t.shimmer then { b with shimmerPhase := b.shimmerPhase + 5/100 } else b
    let b := if t.sparkle then { b with sparkleOffset := b.sparkleOffset + 8/100 } else b
    if t.stars then
      { b with starPositions :=
          b.starPositions.map (fun s => { s with twinkle := s.twinkle + 6/100 }) }
    else b

/-- The late-life fade of `Bubble.update`: opacity is reassigned only when
`age/lifetime > 0.92` (= 23/25), to `1 - (ratio - 0.92)/0.08`. -/
def bubbleApplyFade (b : Bubble) : Bubble :=
  let lifetimeRatio := b.age / b.lifetime
  if lifetimeRatio > 23/25 then
    { b with opacity := 1 - (lifetimeRatio - 23/25) / (2/25) }
  else b

/-- The final bounds check of `Bubble.update` (kill when far off screen). -/
def bubbleCullOffscreen (winW winH : ℚ) (b : Bubble) : Bubble :=
  if b.x < -100 || b.x > winW + 100 || b.y < -100 || b.y > winH + 100 then
    bubbleKill b
  else b

/-- `Bubble.update(deltaTime, physicsEngine, speedMultiplier)`.  `winW`,
`winH` stand for `window.innerWidth` / `window.innerHeight`. -/
def bubbleUpdate (M : MathFns) (nowMs winW winH : ℚ) (b : Bubble)
    (deltaTime : ℚ) (engine : Option EngineState) (speedMultiplier : ℚ)
    (rng : Rng) : Bubble × Option EngineState × Rng :=
  if !b.isAlive then (b, engine, rng)
  else
    let b := bubbleAdvanceAge b deltaTime
    if b.age ≥ b.lifetime then (bubbleKill b, engine, rng)
    else
      let bER : Bubble × Option EngineState × Rng :=
        match engine with
        | some e =>
          -- the third argument passed here is dropped by
          -- `PhysicsEngine.updateBubble(bubble, deltaTime)`
          let (e, b, rng) := updateBubble M nowMs e b deltaTime rng
          (b, some e, rng)
        | none => (bubbleFallbackMove M b speedMultiplier, none, rng)
      let (b, engine, rng) := bER
      let b := bubbleUpdateHue b
      let b := bubbleUpdateThemeAnim b
      let b := bubbleApplyFade b
      (bubbleCullOffscreen winW winH b, engine, rng)

/-- `Bubble.contains(x, y)`: distance to center (via `Math.sqrt`) at most the
radius. -/
def bubbleContains (M : MathFns) (b : Bubble) (x y : ℚ) : Bool :=
  let dx := x - b.x
  let dy := y - b.y
  M.sqrt (dx * dx + dy * dy) ≤ b.radius

/-- State of `BubbleManager`.  Pools are JS arrays used as stacks
(`push`/`pop` at the array end); the embedding keeps the stack top at the
list head.  `nextBid` is the ghost count of `Bubble` allocations. -/
structure BMState where
  bubbles : List Bubble := []
  bubblePool : List Bubble := []
  maxBubbles : ℕ := 25
  activeCount : ℤ := 0
  nextBid : ℕ := 0
deriving Repr

/-- `BubbleManager.createBubble`: reuse the most recently pooled bubble,
else allocate a fresh one (no capacity check inside the manager). -/
def bmCreateBubble (M : MathFns) (s : BMState) (x y size lifetime : ℚ)
    (theme : Option Theme) (rng : Rng) : BMState × Rng :=
  match s.bubblePool with
  | pooled :: rest =>
    let (b, rng) := resetBubble M pooled x y size lifetime theme rng
    ({ s with
       bubblePool := rest, bubbles := s.bubbles ++ [b],
       activeCount := s.activeCount + 1 }, rng)
  | [] =>
    let (b, rng) := mkBubble M s.nextBid x y size lifetime theme rng
    ({ s with
       bubbles := s.bubbles ++ [b], nextBid := s.nextBid + 1,
       activeCount := s.activeCount + 1 }, rng)

/-- `BubbleManager.popBubble`: marks the referenced bubble dead (the ghost
id identifies the mutated object). -/
def bmPopBubble (s : BMState) (bid : ℕ) : BMState :=
  { s with bubbles := s.bubbles.map (fun b =>
      if b.bid = bid then { b with isAlive := false } else b) }

/-- `BubbleManager.update` body: the source iterates indices from the end of
the array down to 0, updating each bubble and splicing out dead ones onto
the pool.  This helper processes the list with the last element first and
returns (kept bubbles, bubbles moved to the pool, engine, rng). -/
def bmUpdateGo (M : MathFns) (nowMs winW winH deltaTime speedMultiplier : ℚ) :
    List Bubble → Option EngineState → Rng →
      List Bubble × List Bubble × Option EngineState × Rng
  | [], engine, rng => ([], [], engine, rng)
  | b :: rest, engine, rng =>
    let (kept, removed, engine, rng) :=
      bmUpdateGo M nowMs winW winH deltaTime speedMultiplier rest engine rng
    let (b, engine, rng) :=
      bubbleUpdate M nowMs winW winH b deltaTime engine speedMultiplier rng
    if !b.isAlive then (kept, b :: removed, engine, rng)
    else (b :: kept, removed, engine, rng)

/-- `BubbleManager.update(deltaTime, physicsEngine, speedMultiplier)`. -/
def bmUpdate (M : MathFns) (nowMs winW winH : ℚ) (s : BMState)
    (deltaTime : ℚ) (engine : Option EngineState) (speedMultiplier : ℚ)
    (rng : Rng) : BMState × Option EngineState × Rng :=
  let (kept, removed, engine, rng) :=
    bmUpdateGo M nowMs winW winH deltaTime speedMultiplier s.bubbles engine rng
  ({ s with
     bubbles := kept, bubblePool := removed ++ s.bubblePool,
     activeCount := s.activeCount - removed.length }, engine, rng)

/-- `BubbleManager.render` reorders `this.bubbles` in place by descending
size before drawing (`Array.prototype.sort` is stable). -/
def bmRenderSort (s : BMState) : BMState :=
  { s with bubbles := s.bubbles.mergeSort (fun a b => b.size ≤ a.size) }

/-- `BubbleManager.checkCollision(x, y)`: first bubble in the current array
order that is alive and contains the point. -/
def checkCollision (M : MathFns) : List Bubble → ℚ → ℚ → Option Bubble
  | [], _, _ => none
  | b :: rest, x, y =>
    if b.isAlive && bubbleContains M b x y then some b
    else checkCollision M rest x y

/-- Particle kind tag (`particle.type` in source: `'droplet'` or `'burst'`). -/
inductive PKind
  | droplet
  | burst
deriving DecidableEq, Repr

/-- Particle colors: the constructor default `'#87CEEB'`, the random
`hsl(...)` string of `getDropletColor`, and the fixed burst-ring color. -/
inductive PColor
  | defaultBlue
  | hsl (h s l : ℚ)
  | burstBlue
deriving DecidableEq, Repr

/-- One particle (fields of `ParticleSystem.createNewParticle`, plus the
`maxSize` field that burst particles gain dynamically, plus the ghost
allocation id `pid`). -/
structure Particle where
  pid : ℕ := 0
  x : ℚ := 0
  y : ℚ := 0
  vx : ℚ := 0
  vy : ℚ := 0
  size : ℚ := 1
  opacity : ℚ := 1
  color : PColor := .defaultBlue
  lifetime : ℚ := 1000
  age : ℚ := 0
  isAlive : Bool := true
  kind : PKind := .droplet
  rotation : ℚ := 0
  rotationSpeed : ℚ := 0
  maxSize : ℚ := 0
deriving DecidableEq, Repr

/-- `ParticleSystem.config` (default values of the constructor). -/
structure PSConfig where
  baseParticleCount : ℕ := 8
  maxParticleCount : ℕ := 20
  particleLifetime : ℚ := 1000
  gravity : ℚ := 3/10
  airResistance : ℚ := 49/50
  minSize : ℚ := 1
  maxSize : ℚ := 4
  fadeOutDuration : ℚ := 300
deriving DecidableEq, Repr

/-- State of `ParticleSystem`; `nextPid` is the ghost count of particle
allocations (`createNewParticle` calls). -/
structure PSState where
  particles : List Particle := []
  particlePool : List Particle := []
  maxParticles : ℕ := 200
  activeParticles : ℤ := 0
  config : PSConfig := {}
  performanceMode : Bool := false
  qualityLevel : ℚ := 1
  nextPid : ℕ := 0
deriving DecidableEq, Repr

/-- `ParticleSystem.createNewParticle`. -/
def createNewParticle (pid : ℕ) : Particle := { pid := pid }

/-- `ParticleSystem.resetParticle` (one random for `rotationSpeed`). -/
def resetParticle (p : Particle) (rng : Rng) : Particle × Rng :=
  let (r, rng) := draw rng
  ({ p with
     age := 0, isAlive := true, kind := .droplet, rotation := 0,
     rotationSpeed := (r - 1/2) * (2/10) }, rng)

/-- `ParticleSystem.getDropletColor` (three randoms). -/
def getDropletColor (rng : Rng) : PColor × Rng :=
  let (rh, rng) := draw rng
  let (rs, rng) := draw rng
  let (rl, rng) := draw rng
  (.hsl (200 + rh * 40) (40 + rs * 30) (70 + rl * 20), rng)

/-- `ParticleSystem.createDropletParticle`.  The pooled/fresh choice is
inlined in the source (with no capacity check on the fresh branch — the
caller's `actualCount` bound is what keeps it safe). -/
def createDropletParticle (M : MathFns) (s : PSState)
    (centerX centerY bubbleSize : ℚ) (index total : ℕ) (rng : Rng) :
    PSState × Rng :=
  let pick : Particle × PSState × Rng :=
    match s.particlePool with
    | p :: rest =>
      let (p, rng) := resetParticle p rng
      (p, { s with particlePool := rest }, rng)
    | [] => (createNewParticle s.nextPid, { s with nextPid := s.nextPid + 1 }, rng)
  let (p, s, rng) := pick
  let p := { p with x := centerX, y := centerY }
  let (rj, rng) := draw rng
  let angle := (M.pi * 2 * index) / total + (rj - 1/2) * (1/2)
  let (rs, rng) := draw rng
  let speed := 2 + rs * 4
  let speedMult := M.sqrt (bubbleSize / 150)
  let p := { p with
    vx := M.cos angle * speed * speedMult,
    vy := M.sin angle * speed * speedMult - 1 }
  let (rf, rng) := draw rng
  let sizeFactor := 1/2 + rf * (1/2)
  let p := { p with
    size := (s.config.minSize +
      (s.config.maxSize - s.config.minSize) * sizeFactor) *
        M.sqrt (bubbleSize / 150) }
  let (ro, rng) := draw rng
  let p := { p with opacity := 8/10 + ro * (2/10) }
  let (c, rng) := getDropletColor rng
  let (rl, rng) := draw rng
  let p := { p with
    color := c,
    lifetime := s.config.particleLifetime + (rl - 1/2) * 200 }
  ({ s with
     particles := s.particles ++ [p],
     activeParticles := s.activeParticles + 1 }, rng)

/-- `ParticleSystem.getPooledParticle`: pops the pool unconditionally when
nonempty; allocates fresh only under the `activeParticles < maxParticles`
check; otherwise yields nothing. -/
def getPooledParticle (s : PSState) (rng : Rng) :
    Option Particle × PSState × Rng :=
  match s.particlePool with
  | p :: rest =>
    let (p, rng) := resetParticle p rng
    (some p, { s with particlePool := rest }, rng)
  | [] =>
    if s.activeParticles < (s.maxParticles : ℤ) then
      (some (createNewParticle s.nextPid), { s with nextPid := s.nextPid + 1 }, rng)
    else (none, s, rng)

/-- `ParticleSystem.createBurstEffect`. -/
def createBurstEffect (s : PSState) (x y bubbleSize : ℚ) (rng : Rng) :
    PSState × Rng :=
  match getPooledParticle s rng with
  | (none, s, rng) => (s, rng)
  | (some p, s, rng) =>
    let p := { p with
      x := x, y := y, kind := .burst,
      size := bubbleSize * (1/10),
      maxSize := bubbleSize * (13/10),
      opacity := 4/10, lifetime := 200, age := 0,
      color := .burstBlue }
    ({ s with
       particles := s.particles ++ [p],
       activeParticles := s.activeParticles + 1 }, rng)

/-- The `for (let i = 0; i < actualCount; i++)` loop of `createPopEffect`:
`i` is the next index, the second argument the remaining iterations. -/
def dropletLoop (M : MathFns) (x y bubbleSize : ℚ) (total : ℕ) :
    ℕ → ℕ → PSState → Rng → PSState × Rng
  | _, 0, s, rng => (s, rng)
  | i, k + 1, s, rng =>
    let (s, rng) := createDropletParticle M s x y bubbleSize i total rng
    dropletLoop M x y bubbleSize total (i + 1) k s rng

/-- `ParticleSystem.createPopEffect(x, y, bubbleSize)`. -/
def createPopEffect (M : MathFns) (s : PSState) (x y bubbleSize : ℚ)
    (rng : Rng) : PSState × Rng :=
  let sizeQuot := max (1/2) (min 3 (bubbleSize / 150))
  let particleCount : ℤ := ⌊(s.config.baseParticleCount : ℚ) * sizeQuot * s.qualityLevel⌋
  let availableSlots : ℤ := (s.maxParticles : ℤ) - s.activeParticles
  let actualCount : ℤ := min particleCount availableSlots
  let n : ℕ := actualCount.toNat
  let (s, rng) := dropletLoop M x y bubbleSize n 0 n s rng
  createBurstEffect s x y bubbleSize rng

/-- `ParticleSystem.updateDropletParticle`. -/
def updateDropletParticle (M : MathFns) (cfg : PSConfig) (winW winH : ℚ)
    (p : Particle) (dt : ℚ) : Particle :=
  let p := { p with vy := p.vy + cfg.gravity * dt }
  let p := { p with
    vx := p.vx * M.pow cfg.airResistance dt,
    vy := p.vy * M.pow cfg.airResistance dt }
  let p := { p with x := p.x + p.vx * dt, y := p.y + p.vy * dt }
  let p := { p with rotation := p.rotation + p.rotationSpeed * dt }
  let ageQuot := p.age / p.lifetime
  let p :=
    if ageQuot < 3/10 then { p with size := p.size * (1 + 1/100 * dt) }
    else { p with size := p.size * (1 - 5/1000 * dt) }
  if p.size < 1/2 || p.x < -50 || p.x > winW + 50 || p.y > winH + 100 then
    { p with isAlive := false }
  else p

/-- `ParticleSystem.updateBurstParticle`. -/
def updateBurstParticle (p : Particle) (_dt : ℚ) : Particle :=
  let progress := p.age / p.lifetime
  let p := { p with size := p.maxSize * progress, opacity := 4/10 * (1 - progress) }
  if progress ≥ 1 then { p with isAlive := false } else p

/-- `ParticleSystem.updateParticleOpacity`. -/
def updateParticleOpacity (cfg : PSConfig) (p : Particle) : Particle :=
  let ageQuot := p.age / p.lifetime
  if p.kind = .droplet then
    let fadeStart := 1 - cfg.fadeOutDuration / p.lifetime
    if ageQuot > fadeStart then
      let fadeProgress := (ageQuot - fadeStart) / (1 - fadeStart)
      { p with opacity := p.opacity * (1 - fadeProgress) }
    else p
  else p

/-- `ParticleSystem.updateParticle`. -/
def updateParticle (M : MathFns) (cfg : PSConfig) (winW winH : ℚ)
    (p : Particle) (dt : ℚ) : Particle :=
  let p := { p with age := p.age + dt * (1667/100) }
  let p :=
    if p.kind = .burst then updateBurstParticle p dt
    else updateDropletParticle M cfg winW winH p dt
  updateParticleOpacity cfg p

/-- `ParticleSystem.update` body (backwards index loop, last element handled
first); returns (kept particles, particles spliced onto the pool). -/
def psUpdateGo (M : MathFns) (cfg : PSConfig) (winW winH dt : ℚ) :
    List Particle → List Particle × List Particle
  | [] => ([], [])
  | p :: rest =>
    let (kept, removed) := psUpdateGo M cfg winW winH dt rest
    if !p.isAlive then (kept, p :: removed)
    else
      let p := updateParticle M cfg winW winH p dt
      if p.age ≥ p.lifetime || p.opacity ≤ 0 then (kept, p :: removed)
      else (p :: kept, removed)

/-- `ParticleSystem.update(deltaTime)`. -/
def psUpdate (M : MathFns) (s : PSState) (deltaTime winW winH : ℚ) : PSState :=
  let dt := deltaTime / (1667/100)
  let (kept, removed) := psUpdateGo M s.config winW winH dt s.particles
  { s with
    particles := kept, particlePool := removed ++ s.particlePool,
    activeParticles := s.activeParticles - removed.length }

/-- `ParticleSystem.clearAll`. -/
def psClearAll (s : PSState) : PSState :=
  { s with
    particlePool := s.particles.reverse ++ s.particlePool,
    particles := [], activeParticles := 0 }

/-- Audio context activation state (`AudioContext.state`). -/
inductive CtxState
  | running
  | suspended
deriving DecidableEq, Repr

/-- A decoded audio buffer (only its `duration` is read). -/
structure Buffer where
  duration : ℚ
deriving DecidableEq, Repr

/-- Theme keys of `AudioManager.bubblePopBuffers`. -/
inductive ThemeName
  | classic
  | oil
  | crystal
  | galaxy
deriving DecidableEq, Repr

/-- One tracked sound instance (entries of `AudioManager.activeSounds`):
the sample-playback path stores `{id, source, gainNode, startTime,
duration}`, the procedural path `{id, oscillator, gainNode, filterNode,
harmonic, startTime, duration}`.  Presence of handles is recorded as
booleans. -/
structure Sound where
  sid : ℚ
  hasSource : Bool := false
  hasOscillator : Bool := false
  hasHarmonic : Bool := false
  startTime : ℚ := 0
  duration : ℚ := 0
deriving DecidableEq, Repr

/-- One queued request (`{bubbleSize, theme, timestamp}`). -/
structure QueuedSound where
  bubbleSize : ℚ
  theme : ThemeName
  timestamp : ℚ
deriving DecidableEq, Repr

/-- State of `AudioManager`.  The fields `bubblePopBuffer` (singular),
`baseFrequency` and `frequencyRange` are read by `playAudioFile` /
`createPopSound` but are assigned by no constructor or method in the
source, i.e. they are `undefined` at every use; they are therefore `none`
here permanently.  `sourceStartCount` / `oscStartCount` /
`fallbackCount` are ghost counters of emitted `source.start` calls,
oscillator `start` calls and `createPopSound` invocations. -/
structure AMState where
  isEnabled : Bool := true
  isMuted : Bool := false
  volume : ℚ := 3/10
  isInitialized : Bool := false
  hasAudioContext : Bool := false
  contextState : CtxState := .suspended
  bubblePopBuffers : ThemeName → Option Buffer := fun _ => none
  bubblePopBuffer : Option Buffer := none
  isBufferLoaded : Bool := false
  maxSimultaneousSounds : ℕ := 5
  activeSounds : List Sound := []
  soundQueue : List QueuedSound := []
  baseFrequency : Option ℚ := none
  frequencyRange : Option ℚ := none
  sourceStartCount : ℕ := 0
  oscStartCount : ℕ := 0
  fallbackCount : ℕ := 0

/-- `AudioManager.createPopSound(bubbleSize)`.  The computed frequency is
`this.baseFrequency + this.frequencyRange * (1 - sizeRatio*0.5)`; both
fields are `undefined`, so the result is `NaN`, and inside
`synthesizePopSound` the call
`oscillator.frequency.setValueAtTime(NaN, ...)` throws a `TypeError`
(Web Audio `AudioParam` values are WebIDL restricted floats) before any
oscillator is started; the surrounding `try/catch` swallows it, so no
sound is registered.  The branch where both fields are present is kept so
the intended behaviour is also visible. -/
def createPopSound (s : AMState) (bubbleSize nowWall : ℚ) (rng : Rng) :
    AMState × Rng :=
  let s := { s with fallbackCount := s.fallbackCount + 1 }
  let (rid, rng) := draw rng
  match s.baseFrequency, s.frequencyRange with
  | some bf, some fr =>
    let sizeQuot := max (3/10) (min 3 (bubbleSize / 150))
    let frequency := bf + fr * (1 - sizeQuot * (1/2))
    let duration := 8/100 + sizeQuot * (4/100)
    -- synthesizePopSound: main oscillator and harmonic are started,
    -- the sound record is pushed, cleanup scheduled via setTimeout
    let _ := frequency
    let sound : Sound := {
      sid := nowWall + rid,
      hasOscillator := true, hasHarmonic := true, duration := duration }
    ({ s with
       oscStartCount := s.oscStartCount + 2,
       activeSounds := s.activeSounds ++ [sound] }, rng)
  | _, _ =>
    -- NaN frequency: synthesizePopSound throws before `oscillator.start`,
    -- the catch logs the error, activeSounds is unchanged
    (s, rng)

/-- `AudioManager.playAudioFile(bubbleSize, theme)`.  The source starts the
buffer source, then computes
`const duration = this.bubblePopBuffer.duration / playbackRate` — but the
constructor only ever defines `bubblePopBuffers` (plural), so
`this.bubblePopBuffer` is `undefined` and the member access throws a
`TypeError` after playback has already started; the `catch` then falls
back to `createPopSound`, and the started sample is never entered into
`activeSounds` (so no `onended` completion is registered for it).  The
`some`-branch shows the unreachable intended registration. -/
def playAudioFile (s : AMState) (bubbleSize : ℚ) (theme : ThemeName)
    (nowWall : ℚ) (rng : Rng) : AMState × Rng :=
  let (rid, rng) := draw rng       -- soundId = Date.now() + Math.random()
  let (_rv, rng) := draw rng       -- randomVariation for the gain
  let _ := theme
  let s := { s with sourceStartCount := s.sourceStartCount + 1 }  -- source.start(now)
  match s.bubblePopBuffer with
  | none => createPopSound s bubbleSize nowWall rng
  | some buf =>
    let sizeQuot := max (3/10) (min 3 (bubbleSize / 150))
    let playbackRate := 8/10 + (1 - sizeQuot * (3/10))
    let duration := buf.duration / playbackRate
    let sound : Sound := {
      sid := nowWall + rid,
      hasSource := true, duration := duration }
    ({ s with activeSounds := s.activeSounds ++ [sound] }, rng)

/-- `AudioManager.processQueuedSounds()`: drop entries at least 100 ms old,
then play the head of the queue if a slot is free. -/
def processQueuedSounds (s : AMState) (nowWall : ℚ) (rng : Rng) :
    AMState × Rng :=
  let q := s.soundQueue.filter (fun e => nowWall - e.timestamp < 100)
  let s := { s with soundQueue := q }
  match q with
  | [] => (s, rng)
  | e :: rest =>
    if s.activeSounds.length < s.maxSimultaneousSounds then
      let s := { s with soundQueue := rest }
      if s.isBufferLoaded && (s.bubblePopBuffers e.theme).isSome then
        playAudioFile s e.bubbleSize e.theme nowWall rng
      else
        createPopSound s e.bubbleSize nowWall rng
    else (s, rng)

/-- `AudioManager.playPopSound(bubbleSize, theme)` — the pop-sound trigger. -/
def playPopSound (s : AMState) (bubbleSize : ℚ) (theme : ThemeName)
    (nowWall : ℚ) (rng : Rng) : AMState × Rng :=
  if !s.isEnabled || s.isMuted || !s.hasAudioContext || !s.isInitialized then
    (s, rng)
  else if s.contextState = .suspended then (s, rng)
  else if s.maxSimultaneousSounds ≤ s.activeSounds.length then
    let s := { s with
      soundQueue := s.soundQueue ++ [⟨bubbleSize, theme, nowWall⟩] }
    processQueuedSounds s nowWall rng
  else if s.isBufferLoaded && (s.bubblePopBuffers theme).isSome then
    playAudioFile s bubbleSize theme nowWall rng
  else if s.isBufferLoaded && (s.bubblePopBuffers ThemeName.classic).isSome then
    playAudioFile s bubbleSize ThemeName.classic nowWall rng
  else
    createPopSound s bubbleSize nowWall rng

/-- `AudioManager.cleanupSound(soundId)`: remove the finished sound, then
drain the queue. -/
def cleanupSound (s : AMState) (soundId nowWall : ℚ) (rng : Rng) :
    AMState × Rng :=
  let s := { s with
    activeSounds := s.activeSounds.filter (fun snd => snd.sid ≠ soundId) }
  processQueuedSounds s nowWall rng

/-- `AudioManager.stopAllSounds()`: for each tracked sound, stop its
`oscillator` and `harmonic` handles when present (a sound holding only a
`source` handle receives no stop call), then empty both lists.  Returns
the ids of sounds that received at least one stop call. -/
def stopAllSounds (s : AMState) : AMState × List ℚ :=
  let stoppedIds := (s.activeSounds.filter
    (fun snd => snd.hasOscillator || snd.hasHarmonic)).map Sound.sid
  ({ s with activeSounds := [], soundQueue := [] }, stoppedIds)

/-- `AudioManager.toggleMute()`: flip `isMuted`; when now muted, stop all
sounds.  (The `audioContext.resume()` attempt is asynchronous and changes
no synchronous state.)  Returns the new state, the stopped ids, and the
source's return value `!this.isMuted`. -/
def toggleMute (s : AMState) : AMState × List ℚ × Bool :=
  let s := { s with isMuted := !s.isMuted }
  if s.isMuted then
    let (s, stoppedIds) := stopAllSounds s
    (s, stoppedIds, !s.isMuted)
  else (s, [], !s.isMuted)

/-! ## Concrete math backends for witnesses and counterexamples -/

/-- A degenerate math backend (`sin = cos = sqrt = 0`, `pow = 1`, `pi = 0`):
used to isolate single forces in concrete runs. -/
def zeroMath : MathFns :=
  { sin := fun _ => 0, cos := fun _ => 0, sqrt := fun _ => 0,
    pow := fun _ _ => 1, pi := 0 }

/-- A backend with `sin = cos = 1`: makes wind rolls produce nonzero
targets in concrete runs. -/
def oneMath : MathFns :=
  { sin := fun _ => 1, cos := fun _ => 1, sqrt := fun _ => 0,
    pow := fun _ _ => 1, pi := 0 }

/-! ## C10 — the speed multiplier is dead when a physics engine is present -/

/-- C10: whenever a physics engine is supplied, `Bubble.update` produces an
identical result for any two values of `speedMultiplier` (same bubble,
delta time, engine state and random stream): the engine branch passes the
multiplier to `PhysicsEngine.updateBubble(bubble, deltaTime)`, which
declares only two parameters, so JS drops the third argument; the
multiplier is read only on the engine-less fallback path. -/
theorem speedMultiplier_dead_with_engine (M : MathFns)
    (nowMs winW winH deltaTime : ℚ) (b : Bubble) (e : EngineState)
    (m₁ m₂ : ℚ) (rng : Rng) :
    bubbleUpdate M nowMs winW winH b deltaTime (some e) m₁ rng =
      bubbleUpdate M nowMs winW winH b deltaTime (some e) m₂ rng := rfl

/-! ## C9 — opacity bounds and the late-life fade ramp -/

/-- The bubble fields relevant to the fade logic: opacity, age, aliveness,
lifetime.  The physics force functions leave all four untouched. -/
def lifeView (b : Bubble) : ℚ × ℚ × Bool × ℚ :=
  (b.opacity, b.age, b.isAlive, b.lifetime)

theorem lifeView_applyBuoyancy (e : EngineState) (b : Bubble) (dt g : ℚ) :
    lifeView (applyBuoyancy e b dt g) = lifeView b := rfl

theorem lifeView_applyWobble (M : MathFns) (e : EngineState) (b : Bubble)
    (dt g : ℚ) : lifeView (applyWobble M e b dt g) = lifeView b := by
  simp only [applyWobble]; split_ifs <;> rfl

theorem lifeView_applyBreeze (M : MathFns) (nowMs : ℚ) (e : EngineState)
    (b : Bubble) (dt g : ℚ) : lifeView (applyBreeze M nowMs e b dt g) = lifeView b := rfl

theorem lifeView_applyAirResistance (M : MathFns) (e : EngineState)
    (b : Bubble) (dt : ℚ) : lifeView (applyAirResistance M e b dt) = lifeView b := by
  simp only [applyAirResistance]; split_ifs <;> rfl

theorem lifeView_handleBoundaries (e : EngineState) (b : Bubble) :
    lifeView (handleBoundaries e b) = lifeView b := by
  simp only [handleBoundaries]; split_ifs <;> rfl

theorem lifeView_applySizeEffectsM (M : MathFns) (b : Bubble) (dt : ℚ)
    (rng : Rng) : lifeView (applySizeEffectsM M b dt rng).1 = lifeView b := by
  simp only [applySizeEffectsM]; split_ifs <;> rfl

theorem lifeView_setXY (b : Bubble) (x' y' : ℚ) :
    lifeView { b with x := x', y := y' } = lifeView b := rfl

theorem lifeView_integratePosition (b : Bubble) (dt : ℚ) :
    lifeView (integratePosition b dt) = lifeView b := rfl

theorem lifeView_updateBubble (M : MathFns) (nowMs : ℚ) (e : EngineState)
    (b : Bubble) (dt : ℚ) (rng : Rng) :
    lifeView (updateBubble M nowMs e b dt rng).2.1 = lifeView b := by
  unfold updateBubble
  split
  next e1 rng1 henv =>
  simp only []
  split <;>
    rw [lifeView_applySizeEffectsM, lifeView_handleBoundaries,
      lifeView_integratePosition, lifeView_applyAirResistance,
      lifeView_applyBreeze, lifeView_applyWobble, lifeView_applyBuoyancy]


theorem bubbleAdvanceAge_age (b : Bubble) (dt : ℚ) :
    (bubbleAdvanceAge b dt).age = b.age + dt := rfl

theorem bubbleAdvanceAge_lifetime (b : Bubble) (dt : ℚ) :
    (bubbleAdvanceAge b dt).lifetime = b.lifetime := rfl

theorem lifeView_bubbleFallbackMove (M : MathFns) (b : Bubble) (m : ℚ) :
    lifeView (bubbleFallbackMove M b m) = lifeView b := rfl

theorem lifeView_bubbleUpdateHue (b : Bubble) :
    lifeView (bubbleUpdateHue b) = lifeView b := by
  simp only [bubbleUpdateHue]; split <;> rfl

theorem lifeView_bubbleUpdateThemeAnim (b : Bubble) :
    lifeView (bubbleUpdateThemeAnim b) = lifeView b := by
  simp only [bubbleUpdateThemeAnim]
  split
  · rfl
  · split_ifs <;> rfl

theorem bubbleApplyFade_opacity (b : Bubble) :
    (bubbleApplyFade b).opacity =
      if 23/25 < b.age / b.lifetime then
        1 - (b.age / b.lifetime - 23/25) / (2/25)
      else b.opacity := by
  simp only [bubbleApplyFade]; split_ifs <;> rfl

theorem bubbleCullOffscreen_opacity (winW winH : ℚ) (b : Bubble) :
    (bubbleCullOffscreen winW winH b).opacity = b.opacity := by
  simp only [bubbleCullOffscreen, bubbleKill]; split <;> rfl

/-- If the bubble is already dead, `Bubble.update` is the identity. -/
theorem bubbleUpdate_dead (M : MathFns) (nowMs winW winH deltaTime : ℚ)
    (b : Bubble) (engine : Option EngineState) (m : ℚ) (rng : Rng)
    (h : b.isAlive = false) :
    bubbleUpdate M nowMs winW winH b deltaTime engine m rng = (b, engine, rng) := by
  unfold bubbleUpdate
  simp [h]

/-- If the advanced age reaches the lifetime, `Bubble.update` only advances
the age and clears the alive flag. -/
theorem bubbleUpdate_expire (M : MathFns) (nowMs winW winH deltaTime : ℚ)
    (b : Bubble) (engine : Option EngineState) (m : ℚ) (rng : Rng)
    (ha : b.isAlive = true) (hd : b.lifetime ≤ b.age + deltaTime) :
    bubbleUpdate M nowMs winW winH b deltaTime engine m rng =
      (bubbleKill (bubbleAdvanceAge b deltaTime), engine, rng) := by
  unfold bubbleUpdate
  simp only [ha, Bool.not_true, Bool.false_eq_true, if_false]
  rw [if_pos]
  exact hd

/-- On the surviving path, the resulting opacity is the fade formula when
the new age ratio is past 23/25, and the old opacity otherwise. -/
theorem bubbleUpdate_opacity_char (M : MathFns)
    (nowMs winW winH deltaTime : ℚ) (b : Bubble)
    (engine : Option EngineState) (m : ℚ) (rng : Rng)
    (ha : b.isAlive = true) (hd : ¬ b.lifetime ≤ b.age + deltaTime) :
    (bubbleUpdate M nowMs winW winH b deltaTime engine m rng).1.opacity =
      if 23/25 < (b.age + deltaTime) / b.lifetime then
        1 - ((b.age + deltaTime) / b.lifetime - 23/25) / (2/25)
      else b.opacity := by
  unfold bubbleUpdate
  simp only [ha, Bool.not_true, Bool.false_eq_true, if_false]
  rw [if_neg (by rw [bubbleAdvanceAge_age, bubbleAdvanceAge_lifetime]; exact hd)]
  cases engine with
  | none =>
    simp only []
    have hlv : lifeView (bubbleUpdateThemeAnim (bubbleUpdateHue
        (bubbleFallbackMove M (bubbleAdvanceAge b deltaTime) m))) =
        lifeView (bubbleAdvanceAge b deltaTime) := by
      rw [lifeView_bubbleUpdateThemeAnim, lifeView_bubbleUpdateHue,
        lifeView_bubbleFallbackMove]
    rw [bubbleCullOffscreen_opacity, bubbleApplyFade_opacity]
    have hage := congrArg (fun p => p.2.1) hlv
    have hlt := congrArg (fun p => p.2.2.2) hlv
    have hop := congrArg (fun p => p.1) hlv
    simp only [lifeView] at hage hlt hop
    rw [hage, hlt, hop, bubbleAdvanceAge_age, bubbleAdvanceAge_lifetime]
    rfl
  | some e =>
    simp only []
    have hlv : lifeView (bubbleUpdateThemeAnim (bubbleUpdateHue
        (updateBubble M nowMs e (bubbleAdvanceAge b deltaTime)
          deltaTime rng).2.1)) =
        lifeView (bubbleAdvanceAge b deltaTime) := by
      rw [lifeView_bubbleUpdateThemeAnim, lifeView_bubbleUpdateHue,
        lifeView_updateBubble]
    rw [bubbleCullOffscreen_opacity, bubbleApplyFade_opacity]
    have hage := congrArg (fun p => p.2.1) hlv
    have hlt := congrArg (fun p => p.2.2.2) hlv
    have hop := congrArg (fun p => p.1) hlv
    simp only [lifeView] at hage hlt hop
    rw [hage, hlt, hop, bubbleAdvanceAge_age, bubbleAdvanceAge_lifetime]
    rfl

/-- C9: for every live bubble at all times, 0 ≤ opacity ≤ 1, and opacity
strictly decreases only once age/lifetime > 0.92: opacity starts at 1 on
construction and on pool reset; one `Bubble.update` keeps it in [0, 1];
it is left unchanged whenever the new age ratio is at most 0.92; and any
strict decrease implies the new age ratio is past 0.92. -/
theorem c9_opacity_bounds_and_late_fade (M : MathFns)
    (nowMs winW winH deltaTime : ℚ) (b : Bubble)
    (engine : Option EngineState) (m : ℚ) (rng : Rng)
    (hlo : 0 ≤ b.opacity) (hhi : b.opacity ≤ 1) (hlt : 0 < b.lifetime) :
    (∀ bid x y size lt th r2, (mkBubble M bid x y size lt th r2).1.opacity = 1) ∧
    (∀ x y size lt th r2, (resetBubble M b x y size lt th r2).1.opacity = 1) ∧
    (0 ≤ (bubbleUpdate M nowMs winW winH b deltaTime engine m rng).1.opacity ∧
      (bubbleUpdate M nowMs winW winH b deltaTime engine m rng).1.opacity ≤ 1) ∧
    ((b.age + deltaTime) / b.lifetime ≤ 23/25 →
      (bubbleUpdate M nowMs winW winH b deltaTime engine m rng).1.opacity =
        b.opacity) ∧
    ((bubbleUpdate M nowMs winW winH b deltaTime engine m rng).1.opacity <
        b.opacity →
      23/25 < (b.age + deltaTime) / b.lifetime) := by
  refine ⟨fun bid x y size lt th r2 => rfl, fun x y size lt th r2 => rfl, ?_⟩
  by_cases ha : b.isAlive = true
  · by_cases hd : b.lifetime ≤ b.age + deltaTime
    · rw [bubbleUpdate_expire M nowMs winW winH deltaTime b engine m rng ha hd]
      have hop : (bubbleKill (bubbleAdvanceAge b deltaTime), engine,
          rng).1.opacity = b.opacity := rfl
      rw [hop]
      exact ⟨⟨hlo, hhi⟩, fun _ => rfl, fun hlt' => absurd hlt' (lt_irrefl _)⟩
    · rw [bubbleUpdate_opacity_char M nowMs winW winH deltaTime b engine m rng
        ha hd]
      have hr1 : (b.age + deltaTime) / b.lifetime < 1 :=
        (div_lt_one hlt).mpr (lt_of_not_le hd)
      split_ifs with hr
      · have heq : ((b.age + deltaTime) / b.lifetime - 23/25) / (2/25 : ℚ) =
            ((b.age + deltaTime) / b.lifetime - 23/25) * (25/2) := by ring
        rw [heq]
        refine ⟨⟨by linarith, by linarith⟩, fun hle => absurd hr (not_lt.mpr hle),
          fun _ => hr⟩
      · exact ⟨⟨hlo, hhi⟩, fun _ => rfl, fun hlt' => absurd hlt' (lt_irrefl _)⟩
  · rw [bubbleUpdate_dead M nowMs winW winH deltaTime b engine m rng
      (Bool.not_eq_true _ ▸ eq_false_of_ne_true ha)]
    exact ⟨⟨hlo, hhi⟩, fun _ => rfl, fun hlt' => absurd hlt' (lt_irrefl _)⟩

/-- A concrete live bubble used by witnesses. -/
def bW : Bubble :=
  { x := 0, y := 0, size := 100, radius := 50, lifetime := 1000 }

/-- Witness for `c9_opacity_bounds_and_late_fade` at a concrete bubble. -/
theorem c9_opacity_witness :
    (∀ bid x y size lt th r2,
      (mkBubble zeroMath bid x y size lt th r2).1.opacity = 1) ∧
    (∀ x y size lt th r2,
      (resetBubble zeroMath bW x y size lt th r2).1.opacity = 1) ∧
    (0 ≤ (bubbleUpdate zeroMath 0 1000 800 bW 16 none 1 []).1.opacity ∧
      (bubbleUpdate zeroMath 0 1000 800 bW 16 none 1 []).1.opacity ≤ 1) ∧
    ((bW.age + 16) / bW.lifetime ≤ 23/25 →
      (bubbleUpdate zeroMath 0 1000 800 bW 16 none 1 []).1.opacity =
        bW.opacity) ∧
    ((bubbleUpdate zeroMath 0 1000 800 bW 16 none 1 []).1.opacity <
        bW.opacity →
      23/25 < (bW.age + 16) / bW.lifetime) :=
  c9_opacity_bounds_and_late_fade zeroMath 0 1000 800 16 bW none 1 []
    (by norm_num [bW]) (by norm_num [bW]) (by norm_num [bW])

/-- C7: toggling into the muted state empties the active-sound list and the
queue, and every tracked in-flight sound (which the code always builds with
an oscillator handle: only `createPopSound` registers sounds) receives a
stop call. -/
theorem c7_toggleMute_stops_and_clears (s : AMState)
    (hm : s.isMuted = false)
    (hshape : ∀ snd ∈ s.activeSounds, snd.hasOscillator = true) :
    (toggleMute s).1.isMuted = true ∧
    (toggleMute s).1.activeSounds = [] ∧
    (toggleMute s).1.soundQueue = [] ∧
    ∀ snd ∈ s.activeSounds, snd.sid ∈ (toggleMute s).2.1 := by
  unfold toggleMute stopAllSounds
  simp only [hm, Bool.not_false, if_true]
  refine ⟨trivial, trivial, trivial, ?_⟩
  intro snd hsnd
  exact List.mem_map_of_mem _
    (List.mem_filter.mpr ⟨hsnd, by simp [hshape snd hsnd]⟩)

/-- A concrete unmuted audio state with one tracked procedural sound and one
queued request. -/
def amW : AMState :=
  { isMuted := false,
    activeSounds := [{ sid := 5, hasOscillator := true, hasHarmonic := true }],
    soundQueue := [⟨100, ThemeName.classic, 0⟩] }

/-- Witness for `c7_toggleMute_stops_and_clears`. -/
theorem c7_toggleMute_witness :
    (toggleMute amW).1.isMuted = true ∧
    (toggleMute amW).1.activeSounds = [] ∧
    (toggleMute amW).1.soundQueue = [] ∧
    ∀ snd ∈ amW.activeSounds, snd.sid ∈ (toggleMute amW).2.1 :=
  c7_toggleMute_stops_and_clears amW rfl (by decide)

/-- A concrete audio state after successful initialisation with all four
theme buffers decoded (duration 0.5 s). -/
def amLoaded : AMState :=
  { isEnabled := true, isMuted := false, isInitialized := true,
    hasAudioContext := true, contextState := .running,
    isBufferLoaded := true,
    bubblePopBuffers := fun _ => some ⟨1/2⟩,
    maxSimultaneousSounds := 5 }

/-- C1 (code bug): an admitted pop-sound request on the sample-playback path
starts the buffer source (`sourceStartCount = 1`) but registers no entry in
`activeSounds` and therefore no completion callback: the read of
`this.bubblePopBuffer.duration` throws (only `bubblePopBuffers`, plural, is
ever assigned), the catch falls back to `createPopSound`
(`fallbackCount = 1`), and that fallback also registers nothing because its
frequency is computed from the undefined `baseFrequency`/`frequencyRange`
fields.  No slot is thus ever freed by a completion callback, contradicting
the claim that either strategy emits exactly one such callback. -/
theorem c1_sample_path_registers_no_completion :
    (playPopSound amLoaded 150 ThemeName.classic 1000 []).1.sourceStartCount = 1 ∧
    (playPopSound amLoaded 150 ThemeName.classic 1000 []).1.fallbackCount = 1 ∧
    (playPopSound amLoaded 150 ThemeName.classic 1000 []).1.activeSounds = [] ∧
    (playPopSound amLoaded 150 ThemeName.classic 1000 []).1.oscStartCount = 0 ∧
    (playPopSound amLoaded 150 ThemeName.classic 1000 []).1.soundQueue = [] := by
  decide

/-- `amLoaded` with the concurrency limit of the claim scenario. -/
def amLoaded2 : AMState :=
  { amLoaded with maxSimultaneousSounds := 2 }

/-- C6 (code bug): with limit 2 and three consecutive trigger calls, the
claim expects exactly 2 immediate plays and 1 queued request; on the code,
all three calls start playback immediately (three buffer sources started)
and the queue stays empty, because no play attempt ever registers a sound
in `activeSounds` (each throws on the undefined `bubblePopBuffer` and the
procedural fallback throws on the NaN frequency), so the concurrency limit
is never reached. -/
theorem c6_three_triggers_all_play_none_queued :
    ((playPopSound ((playPopSound ((playPopSound amLoaded2 150
        ThemeName.classic 1000 []).1) 150 ThemeName.classic 1000 []).1) 150
        ThemeName.classic 1000 []).1).sourceStartCount = 3 ∧
    ((playPopSound ((playPopSound ((playPopSound amLoaded2 150
        ThemeName.classic 1000 []).1) 150 ThemeName.classic 1000 []).1) 150
        ThemeName.classic 1000 []).1).activeSounds = [] ∧
    ((playPopSound ((playPopSound ((playPopSound amLoaded2 150
        ThemeName.classic 1000 []).1) 150 ThemeName.classic 1000 []).1) 150
        ThemeName.classic 1000 []).1).soundQueue = [] := by
  decide

/-- Engine for grace-period runs: 1000×800 viewport, defaults otherwise
(zero wind, no breeze zones). -/
def engC3 : EngineState := { width := 1000, height := 800 }

/-- A bubble one pixel below the on-screen margin (y = 850 = height + 50),
age 0: it is inside the spawn grace period. -/
def bubC3 : Bubble :=
  { x := 500, y := 850, size := 150, radius := 75, lifetime := 18000 }

theorem envForces_width_height (M : MathFns) (e : EngineState)
    (dt : ℚ) (rng : Rng) :
    (updateEnvironmentalForces M e dt rng).1.width = e.width ∧
    (updateEnvironmentalForces M e dt rng).1.height = e.height := by
  simp only [updateEnvironmentalForces, generateNewWindPattern]
  split_ifs <;> constructor <;> rfl

theorem isInSpawnGracePeriod_congr (e e' : EngineState) (b : Bubble)
    (hw : e'.width = e.width) (hh : e'.height = e.height) :
    isInSpawnGracePeriod e' b = isInSpawnGracePeriod e b := by
  unfold isInSpawnGracePeriod
  rw [hw, hh]

/-- With zero wind target and a zero-sine/cosine backend, the environmental
update leaves the wind force at zero (a roll, if any, re-rolls a zero
target). -/
theorem envForces_zero_wind (M : MathFns) (e : EngineState) (dt : ℚ)
    (rng : Rng) (hsin : ∀ q, M.sin q = 0) (hcos : ∀ q, M.cos q = 0)
    (hwind : e.windForce = ⟨0, 0⟩) (htarget : e.targetWind = ⟨0, 0⟩) :
    (updateEnvironmentalForces M e dt rng).1.windForce = ⟨0, 0⟩ := by
  simp only [updateEnvironmentalForces, generateNewWindPattern]
  split_ifs <;> simp [hsin, hcos, hwind, htarget]

theorem envForces_zones (M : MathFns) (e : EngineState) (dt : ℚ) (rng : Rng) :
    (updateEnvironmentalForces M e dt rng).1.breezeZones = e.breezeZones := by
  simp only [updateEnvironmentalForces, generateNewWindPattern]
  split_ifs <;> rfl

/-- With zero sin/cos the wobble force contributes nothing. -/
theorem applyWobble_noop (M : MathFns) (e : EngineState) (b : Bubble)
    (dt g : ℚ) (hsin : ∀ q, M.sin q = 0) (hcos : ∀ q, M.cos q = 0) :
    applyWobble M e b dt g = b := by
  simp only [applyWobble, hsin, hcos]
  split_ifs <;> simp

/-- With zero global wind and no breeze zones the breeze force contributes
nothing. -/
theorem applyBreeze_noop (M : MathFns) (nowMs : ℚ) (e : EngineState)
    (b : Bubble) (dt g : ℚ) (hwind : e.windForce = ⟨0, 0⟩)
    (hzones : e.breezeZones = []) :
    applyBreeze M nowMs e b dt g = b := by
  simp only [applyBreeze, getLocalBreeze, hwind, hzones]
  simp

/-- With a zero `sqrt` backend the terminal-velocity clamp never fires, so
air resistance is exactly the drag multiplication — note it takes no grace
factor. -/
theorem applyAirResistance_drag (M : MathFns) (e : EngineState) (b : Bubble)
    (dt : ℚ) (hsqrt : ∀ q, M.sqrt q = 0) (hsize : 0 ≤ b.size) :
    applyAirResistance M e b dt =
      { b with vx := b.vx * M.pow e.airResistance dt,
               vy := b.vy * M.pow e.airResistance dt } := by
  simp only [applyAirResistance, hsqrt]
  rw [if_neg]
  simp only [not_lt]
  have : (0 : ℚ) ≤ b.size / 200 := by positivity
  linarith

/-- A size-150 bubble triggers neither size effect. -/
theorem applySizeEffectsM_neutral (M : MathFns) (b : Bubble) (dt : ℚ)
    (rng : Rng) (hsr : b.size = 150) :
    applySizeEffectsM M b dt rng = (b, rng) := by
  simp only [applySizeEffectsM, hsr]
  norm_num

theorem handleBoundaries_vy (e : EngineState) (b : Bubble) (hy : ¬ b.y < 50) :
    (handleBoundaries e b).vy = b.vy := by
  simp only [handleBoundaries]
  split_ifs <;> rfl

theorem envForces_gravity (M : MathFns) (e : EngineState) (dt : ℚ) (rng : Rng) :
    (updateEnvironmentalForces M e dt rng).1.gravity = e.gravity := by
  simp only [updateEnvironmentalForces, generateNewWindPattern]
  split_ifs <;> rfl

theorem envForces_airResistance (M : MathFns) (e : EngineState) (dt : ℚ)
    (rng : Rng) :
    (updateEnvironmentalForces M e dt rng).1.airResistance = e.airResistance := by
  simp only [updateEnvironmentalForces, generateNewWindPattern]
  split_ifs <;> rfl

theorem size_applyBuoyancy (e : EngineState) (b : Bubble) (dt g : ℚ) :
    (applyBuoyancy e b dt g).size = b.size := rfl

theorem size_integratePosition (b : Bubble) (dt : ℚ) :
    (integratePosition b dt).size = b.size := rfl

theorem size_handleBoundaries (e : EngineState) (b : Bubble) :
    (handleBoundaries e b).size = b.size := by
  simp only [handleBoundaries]; split_ifs <;> rfl

/-- In an environment with no wind, no breeze zones and a degenerate
sin/cos/sqrt backend, `updateBubble` on a size-150 bubble (clear of the
left/top/right margins after integration) changes `vy` by exactly the
buoyancy force times the grace factor — 0.1 inside the spawn grace period
and 1 outside — followed by the drag multiplication, which receives no
grace factor. -/
theorem updateBubble_vy_isolated (M : MathFns) (nowMs : ℚ) (e : EngineState)
    (b : Bubble) (deltaTime : ℚ) (rng : Rng)
    (hsin : ∀ q, M.sin q = 0) (hcos : ∀ q, M.cos q = 0)
    (hsqrt : ∀ q, M.sqrt q = 0)
    (hwind : e.windForce = ⟨0, 0⟩) (htarget : e.targetWind = ⟨0, 0⟩)
    (hzones : e.breezeZones = []) (hsize : b.size = 150)
    (hy : ¬ (b.y + (b.vy + e.gravity * (1 + b.size / 100) *
        (if isInSpawnGracePeriod e b then (1:ℚ)/10 else 1) *
        min (deltaTime / (1667/100)) 2) *
        M.pow e.airResistance (min (deltaTime / (1667/100)) 2) *
        min (deltaTime / (1667/100)) 2 < 50)) :
    (updateBubble M nowMs e b deltaTime rng).2.1.vy =
      (b.vy + e.gravity * (1 + b.size / 100) *
        (if isInSpawnGracePeriod e b then (1:ℚ)/10 else 1) *
        min (deltaTime / (1667/100)) 2) *
      M.pow e.airResistance (min (deltaTime / (1667/100)) 2) := by
  unfold updateBubble
  simp only []
  have hwh := envForces_width_height M e deltaTime rng
  have hg' : isInSpawnGracePeriod (updateEnvironmentalForces M e deltaTime
      rng).1 b = isInSpawnGracePeriod e b :=
    isInSpawnGracePeriod_congr e _ b hwh.1 hwh.2
  have hw' := envForces_zero_wind M e deltaTime rng hsin hcos hwind htarget
  have hz' : (updateEnvironmentalForces M e deltaTime rng).1.breezeZones = [] := by
    rw [envForces_zones]; exact hzones
  rw [applyWobble_noop M _ _ _ _ hsin hcos]
  rw [applyBreeze_noop M nowMs _ _ _ _ hw' hz']
  rw [applyAirResistance_drag M _ _ _ hsqrt
    (by rw [size_applyBuoyancy, hsize]; norm_num)]
  rw [applySizeEffectsM_neutral M _ _ _
    (by rw [size_handleBoundaries, size_integratePosition]; exact hsize)]
  have hy2 := hy
  rw [← envForces_gravity M e deltaTime rng,
    ← envForces_airResistance M e deltaTime rng, ← hg'] at hy2
  rw [handleBoundaries_vy _ _ hy2]
  simp only [integratePosition, applyBuoyancy]
  rw [envForces_gravity, envForces_airResistance, hg']

/-- The concrete bubble `bubC3` (age 0, one pixel below the on-screen
margin) is inside the spawn grace period. -/
theorem bubC3_in_grace : isInSpawnGracePeriod engC3 bubC3 = true := by
  simp only [isInSpawnGracePeriod, engC3, bubC3]
  norm_num

/-- C3 counterexample: the claim exempts buoyancy from the grace-period
0.1 scaling, predicting a vy change of gravity·(1+size/100)·dt = -1/8 for
this in-grace bubble; the code scales buoyancy by the grace factor and
produces -1/80 (wobble, wind and drag are neutralised by the degenerate
math backend, so buoyancy is the only contribution to vy). -/
theorem c3_grace_counterexample :
    isInSpawnGracePeriod engC3 bubC3 = true ∧
    (updateBubble zeroMath 0 engC3 bubC3 (1667/100) []).2.1.vy = -1/80 ∧
    ((-1/80 : ℚ) ≠ -1/8) := by
  refine ⟨bubC3_in_grace, ?_, by norm_num⟩
  rw [updateBubble_vy_isolated zeroMath 0 engC3 bubC3 (1667/100) []
    (fun _ => rfl) (fun _ => rfl) (fun _ => rfl) rfl rfl rfl rfl
    (by rw [bubC3_in_grace]; norm_num [engC3, bubC3, zeroMath, min_def])]
  rw [bubC3_in_grace]
  norm_num [engC3, bubC3, zeroMath, min_def]

/-- C3 (amended): during the spawn grace period the buoyancy, wobble and
wind/breeze forces are the ones scaled by 0.1, while air resistance (and
boundary/size effects) run at full strength; outside the grace period
every force is applied at factor 1.0.  Stated on the vy component with
wobble and wind neutralised: the buoyancy contribution carries the factor
(0.1 iff in grace), and the drag multiplier `pow(airResistance, dt)` is
applied identically in and out of grace. -/
theorem c3_grace_scaling (M : MathFns) (nowMs : ℚ) (e : EngineState)
    (b : Bubble) (deltaTime : ℚ) (rng : Rng)
    (hsin : ∀ q, M.sin q = 0) (hcos : ∀ q, M.cos q = 0)
    (hsqrt : ∀ q, M.sqrt q = 0)
    (hwind : e.windForce = ⟨0, 0⟩) (htarget : e.targetWind = ⟨0, 0⟩)
    (hzones : e.breezeZones = []) (hsize : b.size = 150)
    (hy : ¬ (b.y + (b.vy + e.gravity * (1 + b.size / 100) *
        (if isInSpawnGracePeriod e b then (1:ℚ)/10 else 1) *
        min (deltaTime / (1667/100)) 2) *
        M.pow e.airResistance (min (deltaTime / (1667/100)) 2) *
        min (deltaTime / (1667/100)) 2 < 50)) :
    (updateBubble M nowMs e b deltaTime rng).2.1.vy =
      (b.vy + e.gravity * (1 + b.size / 100) *
        (if isInSpawnGracePeriod e b then (1:ℚ)/10 else 1) *
        min (deltaTime / (1667/100)) 2) *
      M.pow e.airResistance (min (deltaTime / (1667/100)) 2) :=
  updateBubble_vy_isolated M nowMs e b deltaTime rng hsin hcos hsqrt
    hwind htarget hzones hsize hy

/-- Witness for `c3_grace_scaling` at the concrete in-grace bubble. -/
theorem c3_grace_scaling_witness :
    (updateBubble zeroMath 0 engC3 bubC3 (1667/100) []).2.1.vy =
      (bubC3.vy + engC3.gravity * (1 + bubC3.size / 100) *
        (if isInSpawnGracePeriod engC3 bubC3 then (1:ℚ)/10 else 1) *
        min ((1667/100) / (1667/100)) 2) *
      zeroMath.pow engC3.airResistance (min ((1667/100) / (1667/100)) 2) :=
  c3_grace_scaling zeroMath 0 engC3 bubC3 (1667/100) []
    (fun _ => rfl) (fun _ => rfl) (fun _ => rfl) rfl rfl rfl rfl
    (by rw [bubC3_in_grace]; norm_num [engC3, bubC3, zeroMath, min_def])

/-- The engine returned by `updateBubble` is exactly the engine after
`updateEnvironmentalForces`: the per-bubble force phase never touches it. -/
theorem updateBubble_engine (M : MathFns) (nowMs : ℚ) (e : EngineState)
    (b : Bubble) (dt : ℚ) (rng : Rng) :
    (updateBubble M nowMs e b dt rng).1 =
      (updateEnvironmentalForces M e dt rng).1 := rfl

/-- Below the interval threshold, one `updateEnvironmentalForces` call adds
the frame delta to the accumulator and applies one smoothing step. -/
theorem envForces_no_roll (M : MathFns) (e : EngineState) (dt : ℚ) (rng : Rng)
    (h : e.lastWindUpdate + dt < e.windUpdateInterval) :
    updateEnvironmentalForces M e dt rng =
      ({ e with
         lastWindUpdate := e.lastWindUpdate + dt,
         windForce :=
           ⟨e.windForce.x + (e.targetWind.x - e.windForce.x) * (1/50),
            e.windForce.y + (e.targetWind.y - e.windForce.y) * (1/50)⟩ }, rng) := by
  simp only [updateEnvironmentalForces]
  rw [if_neg (not_le.mpr h)]

/-- C5 (amended): the wind accumulator advances and the smoothing step runs
once per `updateBubble` CALL — i.e. once per bubble per frame, not once
per frame: a call with frame delta `dt` moves `lastWindUpdate` to
`lastWindUpdate + dt` (resetting to 0 and re-rolling the target exactly
when that sum reaches the interval), and applies one exponential smoothing
step toward the target. -/
theorem c5_wind_accumulates_per_call (M : MathFns) (nowMs : ℚ)
    (e : EngineState) (b : Bubble) (deltaTime : ℚ) (rng : Rng) :
    ((updateBubble M nowMs e b deltaTime rng).1.lastWindUpdate =
      if e.windUpdateInterval ≤ e.lastWindUpdate + deltaTime then 0
      else e.lastWindUpdate + deltaTime) ∧
    (e.lastWindUpdate + deltaTime < e.windUpdateInterval →
      (updateBubble M nowMs e b deltaTime rng).1.targetWind = e.targetWind ∧
      (updateBubble M nowMs e b deltaTime rng).1.windForce =
        ⟨e.windForce.x + (e.targetWind.x - e.windForce.x) * (1/50),
         e.windForce.y + (e.targetWind.y - e.windForce.y) * (1/50)⟩) := by
  rw [updateBubble_engine]
  constructor
  · simp only [updateEnvironmentalForces, generateNewWindPattern]
    split_ifs <;> simp
  · intro hlt
    rw [envForces_no_roll M e deltaTime rng hlt]
    exact ⟨rfl, rfl⟩

/-- Witness for `c5_wind_accumulates_per_call` at a concrete engine. -/
theorem c5_wind_accumulates_witness :
    ((updateBubble zeroMath 0 engC3 bubC3 1500 []).1.lastWindUpdate =
      if engC3.windUpdateInterval ≤ engC3.lastWindUpdate + 1500 then 0
      else engC3.lastWindUpdate + 1500) ∧
    (engC3.lastWindUpdate + 1500 < engC3.windUpdateInterval →
      (updateBubble zeroMath 0 engC3 bubC3 1500 []).1.targetWind =
        engC3.targetWind ∧
      (updateBubble zeroMath 0 engC3 bubC3 1500 []).1.windForce =
        ⟨engC3.windForce.x +
          (engC3.targetWind.x - engC3.windForce.x) * (1/50),
         engC3.windForce.y +
          (engC3.targetWind.y - engC3.windForce.y) * (1/50)⟩) :=
  c5_wind_accumulates_per_call zeroMath 0 engC3 bubC3 1500 []

/-- Engine state after a 1500 ms frame that updates one bubble. -/
def e5a : EngineState := (updateBubble oneMath 0 engC3 bubC3 1500 []).1

/-- Engine state after the same 1500 ms frame when a second bubble is also
updated (as `BubbleManager.update` does for each active bubble). -/
def e5b : EngineState :=
  (updateBubble oneMath 0 e5a bubC3 1500 [1/2, 1/2, 1/2]).1

/-- C5 counterexample: with a 3000 ms interval, a single 1500 ms frame —
less than one interval of accumulated frame time — does not roll a new
wind target when one bubble is updated, but does roll one when two bubbles
are updated in that same frame, because `updateEnvironmentalForces` is
called (and accumulates the frame delta) once per `updateBubble` call.
This refutes the claim that the roll cadence is independent of how many
bubbles are active. -/
theorem c5_roll_depends_on_bubble_count :
    e5a.targetWind = ⟨0, 0⟩ ∧
    e5b.targetWind = ⟨1/5, 3/50⟩ ∧
    ((⟨1/5, 3/50⟩ : Vec) ≠ ⟨0, 0⟩) ∧
    ((1500 : ℚ) < 3000) := by
  have h1 : updateEnvironmentalForces oneMath engC3 1500 [] =
      ({ engC3 with
         lastWindUpdate := engC3.lastWindUpdate + 1500,
         windForce :=
           ⟨engC3.windForce.x +
              (engC3.targetWind.x - engC3.windForce.x) * (1/50),
            engC3.windForce.y +
              (engC3.targetWind.y - engC3.windForce.y) * (1/50)⟩ }, []) :=
    envForces_no_roll oneMath engC3 1500 [] (by norm_num [engC3])
  refine ⟨?_, ?_, by simp [Vec.mk.injEq], by norm_num⟩
  · show (updateBubble oneMath 0 engC3 bubC3 1500 []).1.targetWind = ⟨0, 0⟩
    rw [updateBubble_engine, h1]
    rfl
  · show (updateBubble oneMath 0 e5a bubC3 1500 [1/2, 1/2, 1/2]).1.targetWind =
      ⟨1/5, 3/50⟩
    rw [updateBubble_engine]
    have he5a : e5a = ({ engC3 with
        lastWindUpdate := engC3.lastWindUpdate + 1500,
        windForce :=
          ⟨engC3.windForce.x +
             (engC3.targetWind.x - engC3.windForce.x) * (1/50),
           engC3.windForce.y +
             (engC3.targetWind.y - engC3.windForce.y) * (1/50)⟩ } : EngineState) := by
      show (updateBubble oneMath 0 engC3 bubC3 1500 []).1 = _
      rw [updateBubble_engine, h1]
    rw [he5a]
    simp only [updateEnvironmentalForces, generateNewWindPattern, draw,
      oneMath, engC3]
    norm_num

/-- Any bubble returned by `checkCollision` is an element of the array, is
alive, and contains the query point. -/
theorem checkCollision_sound (M : MathFns) :
    ∀ (bs : List Bubble) (x y : ℚ) (r : Bubble),
      checkCollision M bs x y = some r →
      r ∈ bs ∧ r.isAlive = true ∧ bubbleContains M r x y = true := by
  intro bs
  induction bs with
  | nil => intro x y r h; simp [checkCollision] at h
  | cons a rest ih =>
    intro x y r h
    by_cases hc : (a.isAlive && bubbleContains M a x y) = true
    · rw [checkCollision, if_pos hc] at h
      obtain rfl : a = r := by injection h
      obtain ⟨h1, h2⟩ : a.isAlive = true ∧ bubbleContains M a x y = true := by
        simpa using hc
      exact ⟨List.mem_cons_self a rest, h1, h2⟩
    · rw [checkCollision, if_neg hc] at h
      obtain ⟨hm, h1, h2⟩ := ih x y r h
      exact ⟨List.mem_cons_of_mem a hm, h1, h2⟩

/-- A live bubble of positive radius is returned for the query at its own
center whenever no earlier bubble in the array matches. -/
theorem checkCollision_center (M : MathFns) (b : Bubble) (post : List Bubble)
    (hs0 : M.sqrt 0 = 0) (hrad : 0 < b.radius) (halive : b.isAlive = true) :
    ∀ pre : List Bubble,
      (∀ a ∈ pre, ¬ (a.isAlive = true ∧ bubbleContains M a b.x b.y = true)) →
      checkCollision M (pre ++ b :: post) b.x b.y = some b := by
  have hcont : bubbleContains M b b.x b.y = true := by
    simp only [bubbleContains]
    have h0 : (b.x - b.x) * (b.x - b.x) + (b.y - b.y) * (b.y - b.y) = 0 := by
      ring
    rw [h0, hs0]
    simpa using hrad.le
  intro pre
  induction pre with
  | nil =>
    intro _
    rw [List.nil_append, checkCollision, if_pos]
    rw [halive, hcont]
    rfl
  | cons a rest ih =>
    intro hpre
    rw [List.cons_append, checkCollision, if_neg]
    · exact ih (fun a' ha' => hpre a' (List.mem_cons_of_mem a ha'))
    · intro hand
      obtain ⟨h1, h2⟩ : a.isAlive = true ∧ bubbleContains M a b.x b.y = true := by
        simpa using hand
      exact hpre a (List.mem_cons_self a rest) ⟨h1, h2⟩

/-- A query point whose (backend) distance to a bubble's center is the
radius plus a positive ε never returns that bubble. -/
theorem checkCollision_far (M : MathFns) (bs : List Bubble) (x y : ℚ)
    (c : Bubble) (ε : ℚ) (hε : 0 < ε)
    (hd : M.sqrt ((x - c.x) * (x - c.x) + (y - c.y) * (y - c.y)) =
      c.radius + ε) :
    checkCollision M bs x y ≠ some c := by
  intro h
  obtain ⟨-, -, hcont⟩ := checkCollision_sound M bs x y c h
  simp only [bubbleContains] at hcont
  rw [hd] at hcont
  simp only [decide_eq_true_eq] at hcont
  linarith

/-- C8 (amended): `checkCollision` is a first-match circle-containment test
(backend distance ≤ radius) over the bubbles array in its current order:
any result is a live, containing member of the array; the query at a live
bubble's center (positive radius) returns that bubble exactly when no
earlier bubble in the array is a live match — not unconditionally, since
an earlier overlapping bubble wins; and a point at distance radius + ε
from a bubble's center never returns that bubble. -/
theorem c8_first_match_containment (M : MathFns) (bs pre post : List Bubble)
    (b : Bubble) (x y : ℚ) (hs0 : M.sqrt 0 = 0) (hrad : 0 < b.radius)
    (halive : b.isAlive = true)
    (hpre : ∀ a ∈ pre, ¬ (a.isAlive = true ∧ bubbleContains M a b.x b.y = true)) :
    (∀ r, checkCollision M bs x y = some r →
      r ∈ bs ∧ r.isAlive = true ∧ bubbleContains M r x y = true) ∧
    checkCollision M (pre ++ b :: post) b.x b.y = some b ∧
    (∀ (c : Bubble) (ε : ℚ), 0 < ε →
      M.sqrt ((x - c.x) * (x - c.x) + (y - c.y) * (y - c.y)) = c.radius + ε →
      checkCollision M bs x y ≠ some c) :=
  ⟨fun r => checkCollision_sound M bs x y r,
   checkCollision_center M b post hs0 hrad halive pre hpre,
   fun c ε hε hd => checkCollision_far M bs x y c ε hε hd⟩

/-- Exact square root on the values used by the C8 scenarios, 0 elsewhere
(`Math.sqrt 2500 = 50` exactly in floats as well). -/
def lutSqrt (q : ℚ) : ℚ := if q = 2500 then 50 else 0

/-- Math backend with the exact-on-perfect-squares root above. -/
def lutMath : MathFns :=
  { sin := fun _ => 0, cos := fun _ => 0, sqrt := lutSqrt,
    pow := fun _ _ => 1, pi := 0 }

/-- First-inserted large bubble centered at the origin, radius 50. -/
def bubA : Bubble :=
  { x := 0, y := 0, size := 100, radius := 50, lifetime := 18000 }

/-- Second-inserted small bubble centered at (30, 40), radius 5; its center
lies inside `bubA` (distance 50 ≤ 50). -/
def bubB : Bubble :=
  { bid := 1, x := 30, y := 40, size := 10, radius := 5, lifetime := 18000 }

/-- Witness for `c8_first_match_containment` with no earlier bubbles. -/
theorem c8_first_match_witness :
    (∀ r, checkCollision lutMath [bubB] bubB.x bubB.y = some r →
      r ∈ [bubB] ∧ r.isAlive = true ∧
        bubbleContains lutMath r bubB.x bubB.y = true) ∧
    checkCollision lutMath ([] ++ bubB :: []) bubB.x bubB.y = some bubB ∧
    (∀ (c : Bubble) (ε : ℚ), 0 < ε →
      lutMath.sqrt ((bubB.x - c.x) * (bubB.x - c.x) +
        (bubB.y - c.y) * (bubB.y - c.y)) = c.radius + ε →
      checkCollision lutMath [bubB] bubB.x bubB.y ≠ some c) :=
  c8_first_match_containment lutMath [bubB] [] [] bubB bubB.x bubB.y
    (by norm_num [lutMath, lutSqrt]) (by norm_num [bubB]) rfl
    (by intro a ha; simp at ha)

/-- C8 counterexample: the point (30, 40) is exactly the center of the live
second-inserted bubble `bubB` (radius 5 > 0), yet `checkCollision` returns
the first-inserted overlapping bubble `bubA` (distance 50 ≤ radius 50),
not `bubB` — refuting "a point exactly at a live bubble's center with
nonzero radius always returns that bubble". -/
theorem c8_center_overlap_counterexample :
    bubA.isAlive = true ∧ bubB.isAlive = true ∧ (0 : ℚ) < bubB.radius ∧
    checkCollision lutMath [bubA, bubB] bubB.x bubB.y = some bubA ∧
    some bubA ≠ some bubB := by
  have hcont : bubbleContains lutMath bubA bubB.x bubB.y = true := by
    norm_num [bubbleContains, lutMath, lutSqrt, bubA, bubB]
  refine ⟨rfl, rfl, by norm_num [bubB], ?_, by simp [bubA, bubB]⟩
  rw [checkCollision, if_pos]
  rw [hcont]
  rfl

/-- One `createDropletParticle` call appends exactly one droplet-kind
particle, pops the pool head when available (allocating a fresh particle
otherwise), and bumps the active counter. -/
theorem createDropletParticle_shape (M : MathFns) (s : PSState)
    (x y size : ℚ) (i total : ℕ) (rng : Rng) :
    ∃ (p : Particle) (rng2 : Rng),
      createDropletParticle M s x y size i total rng =
        ({ s with
           particles := s.particles ++ [p],
           particlePool := s.particlePool.tail,
           nextPid := if s.particlePool.isEmpty then s.nextPid + 1 else s.nextPid,
           activeParticles := s.activeParticles + 1 }, rng2) ∧
      p.kind = PKind.droplet ∧
      p.pid = (match s.particlePool with
               | [] => s.nextPid
               | q :: _ => q.pid) := by
  simp only [createDropletParticle]
  cases hp : s.particlePool with
  | nil => exact ⟨_, _, rfl, rfl, rfl⟩
  | cons q rest => exact ⟨_, _, rfl, rfl, rfl⟩

/-- The droplet loop of `createPopEffect` adds exactly `k` droplet
particles, drops the first `k` pool entries, and adds `k` to the active
counter; it spawns no burst particles. -/
theorem dropletLoop_counts (M : MathFns) (x y size : ℚ) (total : ℕ) :
    ∀ (k i : ℕ) (s : PSState) (rng : Rng),
      ((dropletLoop M x y size total i k s rng).1.particles.length =
        s.particles.length + k) ∧
      ((dropletLoop M x y size total i k s rng).1.particlePool =
        s.particlePool.drop k) ∧
      ((dropletLoop M x y size total i k s rng).1.activeParticles =
        s.activeParticles + k) ∧
      ((dropletLoop M x y size total i k s rng).1.maxParticles =
        s.maxParticles) ∧
      ((dropletLoop M x y size total i k s rng).1.particles.countP
          (fun p => p.kind == PKind.droplet) =
        s.particles.countP (fun p => p.kind == PKind.droplet) + k) ∧
      ((dropletLoop M x y size total i k s rng).1.particles.countP
          (fun p => p.kind == PKind.burst) =
        s.particles.countP (fun p => p.kind == PKind.burst)) := by
  intro k
  induction k with
  | zero => intro i s rng; simp [dropletLoop]
  | succ k ih =>
    intro i s rng
    obtain ⟨p, rng2, heq, hkind, -⟩ :=
      createDropletParticle_shape M s x y size i total rng
    simp only [dropletLoop, heq]
    obtain ⟨ih1, ih2, ih3, ih4, ih5, ih6⟩ := ih (i + 1)
      ({ s with
         particles := s.particles ++ [p],
         particlePool := s.particlePool.tail,
         nextPid := if s.particlePool.isEmpty then s.nextPid + 1 else s.nextPid,
         activeParticles := s.activeParticles + 1 }) rng2
    refine ⟨?_, ?_, ?_, ?_, ?_, ?_⟩
    · rw [ih1]; simp; omega
    · rw [ih2]; simp only []
      rw [← List.drop_one, List.drop_drop]
      congr 1
      omega
    · rw [ih3]; simp; omega
    · rw [ih4]
    · rw [ih5]; simp [List.countP_append, List.countP_cons, hkind]; omega
    · rw [ih6]; simp [List.countP_append, List.countP_cons, hkind]

/-- `createBurstEffect` appends exactly one burst-ring particle when the
pool is nonempty or a capacity slot remains, and nothing otherwise; it
never adds droplets. -/
theorem createBurstEffect_counts (s : PSState) (x y size : ℚ) (rng : Rng) :
    ((createBurstEffect s x y size rng).1.particles.countP
        (fun p => p.kind == PKind.burst) =
      s.particles.countP (fun p => p.kind == PKind.burst) +
        (if s.particlePool ≠ [] ∨ s.activeParticles < (s.maxParticles : ℤ)
         then 1 else 0)) ∧
    ((createBurstEffect s x y size rng).1.particles.countP
        (fun p => p.kind == PKind.droplet) =
      s.particles.countP (fun p => p.kind == PKind.droplet)) := by
  simp only [createBurstEffect, getPooledParticle]
  cases hp : s.particlePool with
  | nil =>
    by_cases hcap : s.activeParticles < (s.maxParticles : ℤ)
    · rw [if_pos hcap]
      simp [List.countP_append, List.countP_cons, hcap]
    · rw [if_neg hcap]
      simp [hcap]
  | cons q rest =>
    simp [List.countP_append, List.countP_cons]

/-- Count bookkeeping of one `createPopEffect` call, assuming the counter
matches the active list and total allocation fits the cap. -/
theorem createPopEffect_counts (M : MathFns) (s : PSState) (x y size : ℚ)
    (rng : Rng)
    (hact : s.activeParticles = (s.particles.length : ℤ))
    (htot : s.particles.length + s.particlePool.length ≤ s.maxParticles) :
    ((createPopEffect M s x y size rng).1.particles.countP
        (fun p => p.kind == PKind.droplet) =
      s.particles.countP (fun p => p.kind == PKind.droplet) +
        (min (⌊(s.config.baseParticleCount : ℚ) *
            (max (1/2) (min 3 (size / 150))) * s.qualityLevel⌋)
          ((s.maxParticles : ℤ) - s.activeParticles)).toNat) ∧
    ((createPopEffect M s x y size rng).1.particles.countP
        (fun p => p.kind == PKind.burst) =
      s.particles.countP (fun p => p.kind == PKind.burst) +
        (if s.particles.length +
            (min (⌊(s.config.baseParticleCount : ℚ) *
               (max (1/2) (min 3 (size / 150))) * s.qualityLevel⌋)
              ((s.maxParticles : ℤ) - s.activeParticles)).toNat <
            s.maxParticles
         then 1 else 0)) := by
  simp only [createPopEffect]
  set nn : ℕ := (min (⌊(s.config.baseParticleCount : ℚ) *
      (max (1/2) (min 3 (size / 150))) * s.qualityLevel⌋)
    ((s.maxParticles : ℤ) - s.activeParticles)).toNat with hnn
  obtain ⟨hl1, hl2, hl3, hl4, hl5, hl6⟩ :=
    dropletLoop_counts M x y size nn nn 0 s rng
  obtain ⟨hb1, hb2⟩ := createBurstEffect_counts
    (dropletLoop M x y size nn 0 nn s rng).1 x y size
    (dropletLoop M x y size nn 0 nn s rng).2
  constructor
  · rw [hb2, hl5]
  · rw [hb1, hl6, hl2, hl3, hl4]
    congr 1
    have hiff : (List.drop nn s.particlePool ≠ [] ∨
        s.activeParticles + (nn : ℤ) < (s.maxParticles : ℤ)) ↔
        s.particles.length + nn < s.maxParticles := by
      constructor
      · rintro (h | h)
        · have hlt : nn < s.particlePool.length := by
            by_contra hge
            exact h (List.drop_eq_nil_iff.mpr (by omega))
          omega
        · rw [hact] at h
          omega
      · intro h
        right
        rw [hact]
        omega
    rw [if_congr hiff rfl rfl]

/-- C2 (amended): `createPopEffect(x, y, size)` spawns exactly
`min(pool-available, FLOOR(baseCount · clamp(size/150, 0.5, 3.0) ·
quality))` droplets — `Math.floor`, not the claimed `Math.round` — plus
one burst-ring exactly when a pool slot remains afterwards (no burst-ring
when capacity is exhausted). -/
theorem c2_droplet_and_burst_counts (M : MathFns) (s : PSState)
    (x y size : ℚ) (rng : Rng)
    (hact : s.activeParticles = (s.particles.length : ℤ))
    (htot : s.particles.length + s.particlePool.length ≤ s.maxParticles) :
    ((createPopEffect M s x y size rng).1.particles.countP
        (fun p => p.kind == PKind.droplet) =
      s.particles.countP (fun p => p.kind == PKind.droplet) +
        (min (⌊(s.config.baseParticleCount : ℚ) *
            (max (1/2) (min 3 (size / 150))) * s.qualityLevel⌋)
          ((s.maxParticles : ℤ) - s.activeParticles)).toNat) ∧
    ((createPopEffect M s x y size rng).1.particles.countP
        (fun p => p.kind == PKind.burst) =
      s.particles.countP (fun p => p.kind == PKind.burst) +
        (if s.particles.length +
            (min (⌊(s.config.baseParticleCount : ℚ) *
               (max (1/2) (min 3 (size / 150))) * s.qualityLevel⌋)
              ((s.maxParticles : ℤ) - s.activeParticles)).toNat <
            s.maxParticles
         then 1 else 0)) :=
  createPopEffect_counts M s x y size rng hact htot

/-- The `ParticleSystem` state right after construction. -/
def ps0 : PSState := {}

/-- Witness for `c2_droplet_and_burst_counts` on the fresh system with a
size-200 pop. -/
theorem c2_counts_witness :
    ((createPopEffect zeroMath ps0 0 0 200 []).1.particles.countP
        (fun p => p.kind == PKind.droplet) =
      ps0.particles.countP (fun p => p.kind == PKind.droplet) +
        (min (⌊(ps0.config.baseParticleCount : ℚ) *
            (max (1/2) (min 3 ((200:ℚ) / 150))) * ps0.qualityLevel⌋)
          ((ps0.maxParticles : ℤ) - ps0.activeParticles)).toNat) ∧
    ((createPopEffect zeroMath ps0 0 0 200 []).1.particles.countP
        (fun p => p.kind == PKind.burst) =
      ps0.particles.countP (fun p => p.kind == PKind.burst) +
        (if ps0.particles.length +
            (min (⌊(ps0.config.baseParticleCount : ℚ) *
               (max (1/2) (min 3 ((200:ℚ) / 150))) * ps0.qualityLevel⌋)
              ((ps0.maxParticles : ℤ) - ps0.activeParticles)).toNat <
            ps0.maxParticles
         then 1 else 0)) :=
  c2_droplet_and_burst_counts zeroMath ps0 0 0 200 []
    (by norm_num [ps0]) (by norm_num [ps0])

/-- Modelled from the claim's words: `Math.round` (floor of x + 1/2). -/
def jsRound (q : ℚ) : ℤ := ⌊q + 1/2⌋

/-- Modelled from the claim's words: the claimed droplet count
`min(pool-available, round(baseCount · clamp(size/150, 0.5, 3.0) ·
quality))`. -/
def claimDropletCount (s : PSState) (size : ℚ) : ℤ :=
  min ((s.maxParticles : ℤ) - s.activeParticles)
    (jsRound ((s.config.baseParticleCount : ℚ) *
      (max (1/2) (min 3 (size / 150))) * s.qualityLevel))

/-- C2 counterexample: a size-200 pop on the fresh system spawns
`floor(8 · (200/150) · 1) = 10` droplets, while the claim's
`round(8 · (200/150) · 1) = 11` — the code floors, it does not round. -/
theorem c2_round_vs_floor_counterexample :
    ((createPopEffect zeroMath ps0 0 0 200 []).1.particles.countP
        (fun p => p.kind == PKind.droplet)) = 10 ∧
    claimDropletCount ps0 200 = 11 ∧ ((10 : ℤ) ≠ 11) := by
  refine ⟨?_, ?_, by norm_num⟩
  · have h := (createPopEffect_counts zeroMath ps0 0 0 200 []
      (by norm_num [ps0]) (by norm_num [ps0])).1
    rw [h]
    norm_num [ps0, min_def, max_def]
    rfl
  · norm_num [claimDropletCount, jsRound, ps0, min_def, max_def]


/-! ## C4 — pool invariants -/

/-- Ghost ids of all particle instances currently owned by the active list
or the free list. -/
def psOwners (s : PSState) : List ℕ :=
  (s.particles ++ s.particlePool).map Particle.pid

/-- Particle-pool invariant: the active counter mirrors the active list,
the owned ids are exactly one copy of each allocated id, and the
allocation count never exceeds the configured maximum. -/
def psInv (s : PSState) : Prop :=
  s.activeParticles = (s.particles.length : ℤ) ∧
  (psOwners s).Perm (List.range s.nextPid) ∧
  s.nextPid ≤ s.maxParticles

theorem createDropletParticle_inv (M : MathFns) (s : PSState)
    (x y size : ℚ) (i total : ℕ) (rng : Rng) (hinv : psInv s)
    (hcap : s.activeParticles < (s.maxParticles : ℤ)) :
    psInv (createDropletParticle M s x y size i total rng).1 := by
  obtain ⟨p, rng2, heq, -, hpid⟩ :=
    createDropletParticle_shape M s x y size i total rng
  obtain ⟨h1, h2, h3⟩ := hinv
  have hlen := h2.length_eq
  simp only [psOwners, List.length_append, List.length_map,
    List.length_range] at hlen
  rw [heq]
  cases hp : s.particlePool with
  | nil =>
    rw [hp] at hpid hlen
    simp only [List.length_nil] at hlen
    simp only at hpid
    refine ⟨?_, ?_, ?_⟩
    · simp only [List.length_append, List.length_singleton]
      rw [h1]
      push_cast
      ring
    · have h2' : (s.particles.map Particle.pid).Perm (List.range s.nextPid) := by
        have h := h2
        simp only [psOwners, hp, List.append_nil] at h
        exact h
      simp only [psOwners, List.tail_nil, List.append_nil,
        List.map_append, List.map_singleton, hpid, List.isEmpty_nil,
        if_true, List.range_succ]
      exact h2'.append_right [s.nextPid]
    · simp only [List.isEmpty_nil, if_true]
      rw [h1] at hcap
      omega
  | cons q rest =>
    rw [hp] at hpid hlen
    simp only at hpid
    have h2' := h2
    simp only [psOwners, hp] at h2'
    refine ⟨?_, ?_, ?_⟩
    · simp only [List.length_append, List.length_singleton]
      rw [h1]
      push_cast
      ring
    · simp only [psOwners, List.tail_cons, List.map_append,
        List.map_singleton, hpid, List.isEmpty_cons]
      have hx : (s.particles.map Particle.pid ++ [q.pid]) ++
          rest.map Particle.pid =
          (s.particles ++ q :: rest).map Particle.pid := by
        simp
      have hnp : (if (false = true) then s.nextPid + 1 else s.nextPid) =
          s.nextPid := by
        simp
      rw [hx, hnp]
      exact h2'
    · simp only [List.isEmpty_cons]
      have hnp : (if (false = true) then s.nextPid + 1 else s.nextPid) =
          s.nextPid := by
        simp
      rw [hnp]
      exact h3

theorem dropletLoop_inv (M : MathFns) (x y size : ℚ) (total : ℕ) :
    ∀ (k i : ℕ) (s : PSState) (rng : Rng),
      psInv s → s.activeParticles + (k : ℤ) ≤ (s.maxParticles : ℤ) →
      psInv (dropletLoop M x y size total i k s rng).1 := by
  intro k
  induction k with
  | zero => intro i s rng hinv _; simpa [dropletLoop] using hinv
  | succ k ih =>
    intro i s rng hinv hcap
    obtain ⟨p, rng2, heq, -, -⟩ :=
      createDropletParticle_shape M s x y size i total rng
    have hstep := createDropletParticle_inv M s x y size i total rng hinv
      (by push_cast at hcap ⊢; omega)
    rw [heq] at hstep
    simp only [dropletLoop, heq]
    apply ih (i + 1) _ rng2 hstep
    simp only [List.length_append, List.length_singleton]
    push_cast at hcap ⊢
    omega

theorem createBurstEffect_inv (s : PSState) (x y size : ℚ) (rng : Rng)
    (hinv : psInv s) : psInv (createBurstEffect s x y size rng).1 := by
  obtain ⟨h1, h2, h3⟩ := hinv
  have hlen := h2.length_eq
  simp only [psOwners, List.length_append, List.length_map,
    List.length_range] at hlen
  cases hp : s.particlePool with
  | nil =>
    rw [hp] at hlen
    simp only [List.length_nil] at hlen
    have h2' : (s.particles.map Particle.pid).Perm (List.range s.nextPid) := by
      have h := h2
      simp only [psOwners, hp, List.append_nil] at h
      exact h
    by_cases hcap : s.activeParticles < (s.maxParticles : ℤ)
    · have hred : createBurstEffect s x y size rng =
          ({ s with
             particles := s.particles ++
               [{ createNewParticle s.nextPid with
                  x := x, y := y, kind := .burst,
                  size := size * (1/10), maxSize := size * (13/10),
                  opacity := 4/10, lifetime := 200, age := 0,
                  color := .burstBlue }],
             nextPid := s.nextPid + 1,
             activeParticles := s.activeParticles + 1 }, rng) := by
        simp only [createBurstEffect, getPooledParticle, hp, if_pos hcap]
      rw [hred]
      refine ⟨?_, ?_, ?_⟩
      · simp only [List.length_append, List.length_singleton]
        rw [h1]; push_cast; ring
      · simp only [psOwners, hp, List.append_nil, List.map_append,
          List.map_singleton, List.range_succ, createNewParticle]
        exact h2'.append_right [s.nextPid]
      · show s.nextPid + 1 ≤ s.maxParticles
        rw [h1] at hcap
        omega
    · have hred : createBurstEffect s x y size rng = (s, rng) := by
        simp only [createBurstEffect, getPooledParticle, hp, if_neg hcap]
      rw [hred]
      exact ⟨h1, h2, h3⟩
  | cons q rest =>
    have h2' := h2
    simp only [psOwners, hp] at h2'
    have hred : createBurstEffect s x y size rng =
        ({ s with
           particlePool := rest,
           particles := s.particles ++
             [{ (resetParticle q rng).1 with
                x := x, y := y, kind := .burst,
                size := size * (1/10), maxSize := size * (13/10),
                opacity := 4/10, lifetime := 200, age := 0,
                color := .burstBlue }],
           activeParticles := s.activeParticles + 1 }, (resetParticle q rng).2) := by
      simp only [createBurstEffect, getPooledParticle, hp]
    rw [hred]
    refine ⟨?_, ?_, ?_⟩
    · simp only [List.length_append, List.length_singleton]
      rw [h1]; push_cast; ring
    · simp only [psOwners, List.map_append, List.map_singleton]
      have hqp : ({ (resetParticle q rng).1 with
          x := x, y := y, kind := PKind.burst,
          size := size * (1/10), maxSize := size * (13/10),
          opacity := 4/10, lifetime := 200, age := 0,
          color := PColor.burstBlue } : Particle).pid = q.pid := by
        simp only [resetParticle]
      rw [hqp]
      have hx : (s.particles.map Particle.pid ++ [q.pid]) ++
          rest.map Particle.pid =
          (s.particles ++ q :: rest).map Particle.pid := by
        simp
      rw [hx]
      exact h2'
    · exact h3

theorem createPopEffect_inv (M : MathFns) (s : PSState) (x y size : ℚ)
    (rng : Rng) (hinv : psInv s) : psInv (createPopEffect M s x y size rng).1 := by
  simp only [createPopEffect]
  apply createBurstEffect_inv
  apply dropletLoop_inv M x y size _ _ _ s _ hinv
  obtain ⟨h1, h2, h3⟩ := hinv
  have hlen := h2.length_eq
  simp only [psOwners, List.length_append, List.length_map,
    List.length_range] at hlen
  have hmin : (min (⌊(s.config.baseParticleCount : ℚ) *
      (max (1/2) (min 3 (size / 150))) * s.qualityLevel⌋)
      ((s.maxParticles : ℤ) - s.activeParticles)) ≤
      (s.maxParticles : ℤ) - s.activeParticles := min_le_right _ _
  omega

theorem pid_updateDropletParticle (M : MathFns) (cfg : PSConfig)
    (winW winH : ℚ) (p : Particle) (dt : ℚ) :
    (updateDropletParticle M cfg winW winH p dt).pid = p.pid := by
  simp only [updateDropletParticle]
  split_ifs <;> rfl

theorem pid_updateBurstParticle (p : Particle) (dt : ℚ) :
    (updateBurstParticle p dt).pid = p.pid := by
  simp only [updateBurstParticle]
  split_ifs <;> rfl

theorem pid_updateParticleOpacity (cfg : PSConfig) (p : Particle) :
    (updateParticleOpacity cfg p).pid = p.pid := by
  simp only [updateParticleOpacity]
  split_ifs <;> rfl

theorem pid_updateParticle (M : MathFns) (cfg : PSConfig) (winW winH : ℚ)
    (p : Particle) (dt : ℚ) :
    (updateParticle M cfg winW winH p dt).pid = p.pid := by
  simp only [updateParticle]
  rw [pid_updateParticleOpacity]
  split_ifs
  · rw [pid_updateBurstParticle]
  · rw [pid_updateDropletParticle]

theorem psUpdateGo_split (M : MathFns) (cfg : PSConfig) (winW winH dt : ℚ) :
    ∀ ps : List Particle,
      ((psUpdateGo M cfg winW winH dt ps).1.map Particle.pid ++
        (psUpdateGo M cfg winW winH dt ps).2.map Particle.pid).Perm
        (ps.map Particle.pid) ∧
      (psUpdateGo M cfg winW winH dt ps).1.length +
        (psUpdateGo M cfg winW winH dt ps).2.length = ps.length := by
  intro ps
  induction ps with
  | nil => simp [psUpdateGo]
  | cons p rest ih =>
    obtain ⟨ih1, ih2⟩ := ih
    have hp' := pid_updateParticle M cfg winW winH p dt
    simp only [psUpdateGo]
    split_ifs with h1 h2
    · constructor
      · simp only [List.map_cons]
        exact List.perm_middle.trans (ih1.cons p.pid)
      · simp only [List.length_cons]
        omega
    · constructor
      · simp only [List.map_cons, hp']
        exact List.perm_middle.trans (ih1.cons p.pid)
      · simp only [List.length_cons]
        omega
    · constructor
      · simp only [List.cons_append, List.map_cons, hp']
        exact ih1.cons p.pid
      · simp only [List.length_cons]
        omega

theorem psUpdate_inv (M : MathFns) (s : PSState) (deltaTime winW winH : ℚ)
    (hinv : psInv s) : psInv (psUpdate M s deltaTime winW winH) := by
  obtain ⟨h1, h2, h3⟩ := hinv
  obtain ⟨hsp, hsl⟩ :=
    psUpdateGo_split M s.config winW winH (deltaTime / (1667/100)) s.particles
  simp only [psUpdate]
  refine ⟨?_, ?_, h3⟩
  · rw [h1]
    push_cast
    omega
  · simp only [psOwners, List.map_append]
    rw [← List.append_assoc]
    refine (hsp.append_right _).trans ?_
    have h2' := h2
    simp only [psOwners, List.map_append] at h2'
    exact h2'

theorem psClearAll_inv (s : PSState) (hinv : psInv s) :
    psInv (psClearAll s) := by
  obtain ⟨h1, h2, h3⟩ := hinv
  refine ⟨by simp [psClearAll], ?_, h3⟩
  simp only [psOwners, psClearAll, List.nil_append, List.map_append]
  refine List.Perm.trans ?_ (by simpa [psOwners, List.map_append] using h2)
  exact ((s.particles.reverse_perm).map Particle.pid).append_right _

theorem bid_applyBuoyancy (e : EngineState) (b : Bubble) (dt g : ℚ) :
    (applyBuoyancy e b dt g).bid = b.bid := rfl

theorem bid_applyWobble (M : MathFns) (e : EngineState) (b : Bubble)
    (dt g : ℚ) : (applyWobble M e b dt g).bid = b.bid := by
  simp only [applyWobble]; split_ifs <;> rfl

theorem bid_applyBreeze (M : MathFns) (nowMs : ℚ) (e : EngineState)
    (b : Bubble) (dt g : ℚ) : (applyBreeze M nowMs e b dt g).bid = b.bid := rfl

theorem bid_applyAirResistance (M : MathFns) (e : EngineState) (b : Bubble)
    (dt : ℚ) : (applyAirResistance M e b dt).bid = b.bid := by
  simp only [applyAirResistance]; split_ifs <;> rfl

theorem bid_integratePosition (b : Bubble) (dt : ℚ) :
    (integratePosition b dt).bid = b.bid := rfl

theorem bid_handleBoundaries (e : EngineState) (b : Bubble) :
    (handleBoundaries e b).bid = b.bid := by
  simp only [handleBoundaries]; split_ifs <;> rfl

theorem bid_applySizeEffectsM (M : MathFns) (b : Bubble) (dt : ℚ)
    (rng : Rng) : (applySizeEffectsM M b dt rng).1.bid = b.bid := by
  simp only [applySizeEffectsM]; split_ifs <;> rfl

theorem bid_updateBubble (M : MathFns) (nowMs : ℚ) (e : EngineState)
    (b : Bubble) (dt : ℚ) (rng : Rng) :
    (updateBubble M nowMs e b dt rng).2.1.bid = b.bid := by
  unfold updateBubble
  split
  next e1 rng1 henv =>
  simp only []
  split <;>
    rw [bid_applySizeEffectsM, bid_handleBoundaries, bid_integratePosition,
      bid_applyAirResistance, bid_applyBreeze, bid_applyWobble,
      bid_applyBuoyancy]

theorem bid_bubbleFallbackMove (M : MathFns) (b : Bubble) (m : ℚ) :
    (bubbleFallbackMove M b m).bid = b.bid := rfl

theorem bid_bubbleUpdateHue (b : Bubble) :
    (bubbleUpdateHue b).bid = b.bid := by
  simp only [bubbleUpdateHue]; split <;> rfl

theorem bid_bubbleUpdateThemeAnim (b : Bubble) :
    (bubbleUpdateThemeAnim b).bid = b.bid := by
  simp only [bubbleUpdateThemeAnim]
  split
  · rfl
  · split_ifs <;> rfl

theorem bid_bubbleApplyFade (b : Bubble) :
    (bubbleApplyFade b).bid = b.bid := by
  simp only [bubbleApplyFade]; split_ifs <;> rfl

theorem bid_bubbleCullOffscreen (winW winH : ℚ) (b : Bubble) :
    (bubbleCullOffscreen winW winH b).bid = b.bid := by
  simp only [bubbleCullOffscreen, bubbleKill]; split <;> rfl

theorem bid_bubbleUpdate (M : MathFns) (nowMs winW winH deltaTime : ℚ)
    (b : Bubble) (engine : Option EngineState) (m : ℚ) (rng : Rng) :
    (bubbleUpdate M nowMs winW winH b deltaTime engine m rng).1.bid = b.bid := by
  by_cases ha : b.isAlive = true
  · by_cases hd : b.lifetime ≤ b.age + deltaTime
    · rw [bubbleUpdate_expire M nowMs winW winH deltaTime b engine m rng ha hd]
      rfl
    · unfold bubbleUpdate
      simp only [ha, Bool.not_true, Bool.false_eq_true, if_false]
      rw [if_neg (by rw [bubbleAdvanceAge_age, bubbleAdvanceAge_lifetime]; exact hd)]
      cases engine with
      | none =>
        simp only []
        rw [bid_bubbleCullOffscreen, bid_bubbleApplyFade,
          bid_bubbleUpdateThemeAnim, bid_bubbleUpdateHue,
          bid_bubbleFallbackMove]
        rfl
      | some e =>
        simp only []
        rw [bid_bubbleCullOffscreen, bid_bubbleApplyFade,
          bid_bubbleUpdateThemeAnim, bid_bubbleUpdateHue, bid_updateBubble]
        rfl
  · have ha' : b.isAlive = false := by
      cases hb : b.isAlive
      · rfl
      · exact absurd hb ha
    rw [bubbleUpdate_dead M nowMs winW winH deltaTime b engine m rng ha']

theorem bid_resetBubble (M : MathFns) (b : Bubble) (x y size lifetime : ℚ)
    (theme : Option Theme) (rng : Rng) :
    (resetBubble M b x y size lifetime theme rng).1.bid = b.bid := rfl

theorem bid_mkBubble (M : MathFns) (bid : ℕ) (x y size lifetime : ℚ)
    (theme : Option Theme) (rng : Rng) :
    (mkBubble M bid x y size lifetime theme rng).1.bid = bid := rfl

/-- Ghost ids of all bubble instances currently owned by the active array
or the pool. -/
def bmOwners (s : BMState) : List ℕ :=
  (s.bubbles ++ s.bubblePool).map Bubble.bid

/-- Bubble-pool invariant: the active counter mirrors the active array,
the owned ids are exactly one copy of each allocated id, and the
allocation count never exceeds the configured maximum. -/
def bmInv (s : BMState) : Prop :=
  s.activeCount = (s.bubbles.length : ℤ) ∧
  (bmOwners s).Perm (List.range s.nextBid) ∧
  s.nextBid ≤ s.maxBubbles

theorem bmCreateBubble_inv (M : MathFns) (s : BMState)
    (x y size lifetime : ℚ) (theme : Option Theme) (rng : Rng)
    (hinv : bmInv s) (hcap : s.activeCount < (s.maxBubbles : ℤ)) :
    bmInv (bmCreateBubble M s x y size lifetime theme rng).1 := by
  obtain ⟨h1, h2, h3⟩ := hinv
  have hlen := h2.length_eq
  simp only [bmOwners, List.length_append, List.length_map,
    List.length_range] at hlen
  cases hp : s.bubblePool with
  | nil =>
    rw [hp] at hlen
    simp only [List.length_nil] at hlen
    have h2' : (s.bubbles.map Bubble.bid).Perm (List.range s.nextBid) := by
      have h := h2
      simp only [bmOwners, hp, List.append_nil] at h
      exact h
    have hred : bmCreateBubble M s x y size lifetime theme rng =
        ({ s with
           bubbles := s.bubbles ++
             [(mkBubble M s.nextBid x y size lifetime theme rng).1],
           nextBid := s.nextBid + 1,
           activeCount := s.activeCount + 1 },
         (mkBubble M s.nextBid x y size lifetime theme rng).2) := by
      simp only [bmCreateBubble, hp]
    rw [hred]
    refine ⟨?_, ?_, ?_⟩
    · simp only [List.length_append, List.length_singleton]
      rw [h1]; push_cast; ring
    · simp only [bmOwners, hp, List.append_nil, List.map_append,
        List.map_singleton, bid_mkBubble, List.range_succ]
      exact h2'.append_right [s.nextBid]
    · show s.nextBid + 1 ≤ s.maxBubbles
      rw [h1] at hcap
      omega
  | cons pooled rest =>
    have h2' := h2
    simp only [bmOwners, hp] at h2'
    have hred : bmCreateBubble M s x y size lifetime theme rng =
        ({ s with
           bubblePool := rest,
           bubbles := s.bubbles ++
             [(resetBubble M pooled x y size lifetime theme rng).1],
           activeCount := s.activeCount + 1 },
         (resetBubble M pooled x y size lifetime theme rng).2) := by
      simp only [bmCreateBubble, hp]
    rw [hred]
    refine ⟨?_, ?_, h3⟩
    · simp only [List.length_append, List.length_singleton]
      rw [h1]; push_cast; ring
    · simp only [bmOwners, List.map_append, List.map_singleton,
        bid_resetBubble]
      have hx : (s.bubbles.map Bubble.bid ++ [pooled.bid]) ++
          rest.map Bubble.bid =
          (s.bubbles ++ pooled :: rest).map Bubble.bid := by
        simp
      rw [hx]
      exact h2'

theorem bmPopBubble_inv (s : BMState) (bid : ℕ) (hinv : bmInv s) :
    bmInv (bmPopBubble s bid) := by
  obtain ⟨h1, h2, h3⟩ := hinv
  refine ⟨?_, ?_, h3⟩
  · simpa only [bmPopBubble, List.length_map] using h1
  · simp only [bmOwners, bmPopBubble, List.map_append, List.map_map]
    have hmap : s.bubbles.map
        (Bubble.bid ∘ fun b =>
          if b.bid = bid then { b with isAlive := false } else b) =
        s.bubbles.map Bubble.bid := by
      apply List.map_congr_left
      intro b _
      simp only [Function.comp]
      split_ifs <;> rfl
    rw [hmap]
    have h2' := h2
    simp only [bmOwners, List.map_append] at h2'
    exact h2'

theorem bmUpdateGo_split (M : MathFns) (nowMs winW winH deltaTime m : ℚ) :
    ∀ (bs : List Bubble) (engine : Option EngineState) (rng : Rng),
      ((bmUpdateGo M nowMs winW winH deltaTime m bs engine rng).1.map
          Bubble.bid ++
        (bmUpdateGo M nowMs winW winH deltaTime m bs engine rng).2.1.map
          Bubble.bid).Perm (bs.map Bubble.bid) ∧
      (bmUpdateGo M nowMs winW winH deltaTime m bs engine rng).1.length +
        (bmUpdateGo M nowMs winW winH deltaTime m bs engine rng).2.1.length =
        bs.length := by
  intro bs
  induction bs with
  | nil => intro engine rng; simp [bmUpdateGo]
  | cons b rest ih =>
    intro engine rng
    obtain ⟨ih1, ih2⟩ := ih engine rng
    rcases hgo : bmUpdateGo M nowMs winW winH deltaTime m rest engine rng with
      ⟨kept, removed, e1, r1⟩
    simp only [hgo] at ih1 ih2
    have hbid := bid_bubbleUpdate M nowMs winW winH deltaTime b e1 m r1
    simp only [bmUpdateGo, hgo]
    split_ifs with h1
    · constructor
      · simp only [List.map_cons, hbid]
        exact List.perm_middle.trans (ih1.cons b.bid)
      · simp only [List.length_cons]
        omega
    · constructor
      · simp only [List.cons_append, List.map_cons, hbid]
        exact ih1.cons b.bid
      · simp only [List.length_cons]
        omega

theorem bmUpdate_inv (M : MathFns) (nowMs winW winH : ℚ) (s : BMState)
    (deltaTime : ℚ) (engine : Option EngineState) (m : ℚ) (rng : Rng)
    (hinv : bmInv s) :
    bmInv (bmUpdate M nowMs winW winH s deltaTime engine m rng).1 := by
  obtain ⟨h1, h2, h3⟩ := hinv
  obtain ⟨hsp, hsl⟩ :=
    bmUpdateGo_split M nowMs winW winH deltaTime m s.bubbles engine rng
  rcases hgo : bmUpdateGo M nowMs winW winH deltaTime m s.bubbles engine rng with
    ⟨kept, removed, e1, r1⟩
  simp only [hgo] at hsp hsl
  simp only [bmUpdate, hgo]
  refine ⟨?_, ?_, h3⟩
  · rw [h1]
    push_cast
    omega
  · simp only [bmOwners, List.map_append]
    rw [← List.append_assoc]
    refine (hsp.append_right _).trans ?_
    have h2' := h2
    simp only [bmOwners, List.map_append] at h2'
    exact h2'

/-- The particle-system operations that touch the pool: a pop effect
(`createPopEffect`), a frame update (`update`), and `clearAll`. -/
inductive PSStep (M : MathFns) : PSState → PSState → Prop
  | pop (s : PSState) (x y size : ℚ) (rng : Rng) :
      PSStep M s (createPopEffect M s x y size rng).1
  | frame (s : PSState) (deltaTime winW winH : ℚ) :
      PSStep M s (psUpdate M s deltaTime winW winH)
  | clear (s : PSState) : PSStep M s (psClearAll s)

/-- The `ParticleSystem` constructor state. -/
def psInit : PSState := {}

/-- Particle-system states reachable from the constructor state. -/
def PSReachable (M : MathFns) (s : PSState) : Prop :=
  Relation.ReflTransGen (PSStep M) psInit s

/-- The bubble-manager operations that touch the pool: a spawn
(`createBubble`, always called by the game under its
`getActiveCount() < maxBubbles` guard), a pop (`popBubble`), and a frame
update (`update`). -/
inductive BMStep (M : MathFns) : BMState → BMState → Prop
  | spawn (s : BMState) (x y size lifetime : ℚ) (theme : Option Theme)
      (rng : Rng) (h : s.activeCount < (s.maxBubbles : ℤ)) :
      BMStep M s (bmCreateBubble M s x y size lifetime theme rng).1
  | pop (s : BMState) (bid : ℕ) : BMStep M s (bmPopBubble s bid)
  | frame (s : BMState) (nowMs winW winH deltaTime m : ℚ)
      (engine : Option EngineState) (rng : Rng) :
      BMStep M s (bmUpdate M nowMs winW winH s deltaTime engine m rng).1

/-- The `BubbleManager` constructor state. -/
def bmInit : BMState := {}

/-- Bubble-manager states reachable from the constructor state. -/
def BMReachable (M : MathFns) (s : BMState) : Prop :=
  Relation.ReflTransGen (BMStep M) bmInit s

theorem psInit_inv : psInv psInit := by
  refine ⟨rfl, ?_, by norm_num [psInit]⟩
  simp [psOwners, psInit]

theorem bmInit_inv : bmInv bmInit := by
  refine ⟨rfl, ?_, by norm_num [bmInit]⟩
  simp [bmOwners, bmInit]

theorem psStep_inv (M : MathFns) {s t : PSState} (h : PSStep M s t)
    (hinv : psInv s) : psInv t := by
  cases h with
  | pop x y size rng => exact createPopEffect_inv M s x y size rng hinv
  | frame deltaTime winW winH => exact psUpdate_inv M s deltaTime winW winH hinv
  | clear => exact psClearAll_inv s hinv

theorem bmStep_inv (M : MathFns) {s t : BMState} (h : BMStep M s t)
    (hinv : bmInv s) : bmInv t := by
  cases h with
  | spawn x y size lifetime theme rng hcap =>
    exact bmCreateBubble_inv M s x y size lifetime theme rng hinv hcap
  | pop bid => exact bmPopBubble_inv s bid hinv
  | frame nowMs winW winH deltaTime m engine rng =>
    exact bmUpdate_inv M nowMs winW winH s deltaTime engine m rng hinv

theorem psReachable_inv (M : MathFns) (s : PSState)
    (h : PSReachable M s) : psInv s := by
  induction h with
  | refl => exact psInit_inv
  | tail hab hbc ih => exact psStep_inv M hbc ih

theorem bmReachable_inv (M : MathFns) (s : BMState)
    (h : BMReachable M s) : bmInv s := by
  induction h with
  | refl => exact bmInit_inv
  | tail hab hbc ih => exact bmStep_inv M hbc ih

/-- C4: in every particle-system state reachable by pop effects, frame
updates and clears from the constructor state, and every bubble-manager
state reachable by guarded spawns, pops and frame updates from the
constructor state: the active counter equals the active-list length, the
active and free lists together own exactly one copy of each allocated id
(so active + free = totalAllocated, no instance is duplicated or leaked,
and no id has two owners), and the number of simultaneously active
instances never exceeds the configured maximum. -/
theorem c4_pool_invariants (M : MathFns) :
    (∀ s : PSState, PSReachable M s →
      s.activeParticles = (s.particles.length : ℤ) ∧
      s.particles.length + s.particlePool.length = s.nextPid ∧
      (psOwners s).Perm (List.range s.nextPid) ∧
      (psOwners s).Nodup ∧
      s.particles.length ≤ s.maxParticles) ∧
    (∀ s : BMState, BMReachable M s →
      s.activeCount = (s.bubbles.length : ℤ) ∧
      s.bubbles.length + s.bubblePool.length = s.nextBid ∧
      (bmOwners s).Perm (List.range s.nextBid) ∧
      (bmOwners s).Nodup ∧
      s.bubbles.length ≤ s.maxBubbles) := by
  constructor
  · intro s hs
    obtain ⟨h1, h2, h3⟩ := psReachable_inv M s hs
    have hlen := h2.length_eq
    simp only [psOwners, List.length_append, List.length_map,
      List.length_range] at hlen
    exact ⟨h1, hlen, h2, h2.nodup_iff.mpr (List.nodup_range s.nextPid),
      by omega⟩
  · intro s hs
    obtain ⟨h1, h2, h3⟩ := bmReachable_inv M s hs
    have hlen := h2.length_eq
    simp only [bmOwners, List.length_append, List.length_map,
      List.length_range] at hlen
    exact ⟨h1, hlen, h2, h2.nodup_iff.mpr (List.nodup_range s.nextBid),
      by omega⟩

/-- C4 witness: the invariants instantiated at a concretely reached pair of
states — the particle system after one `createPopEffect` at the origin
with a bubble of size 150, the bubble manager after one guarded spawn. -/
theorem c4_pool_invariants_witness :
    ((createPopEffect zeroMath psInit 0 0 150 []).1.particles.length +
        (createPopEffect zeroMath psInit 0 0 150 []).1.particlePool.length =
      (createPopEffect zeroMath psInit 0 0 150 []).1.nextPid) ∧
    ((bmCreateBubble zeroMath bmInit 0 0 150 1000 none []).1.bubbles.length +
        (bmCreateBubble zeroMath bmInit 0 0 150 1000 none []).1.bubblePool.length =
      (bmCreateBubble zeroMath bmInit 0 0 150 1000 none []).1.nextBid) := by
  constructor
  · exact ((c4_pool_invariants zeroMath).1
      (createPopEffect zeroMath psInit 0 0 150 []).1
      (Relation.ReflTransGen.single (PSStep.pop psInit 0 0 150 []))).2.1
  · exact ((c4_pool_invariants zeroMath).2
      (bmCreateBubble zeroMath bmInit 0 0 150 1000 none []).1
      (Relation.ReflTransGen.single
        (BMStep.spawn bmInit 0 0 150 1000 none [] (by norm_num [bmInit])))).2.1
